import Mathlib

/-! go-bytes: a verification development

Shallow embedding of the programs of the repository that the specification
talks about, followed by the theorems that settle each claim.

Conventions of the embedding

* Go `int` is the 64-bit two's-complement integer: a Lean `Int` together with
  `wrapInt`, which reduces a mathematical result into `[-2^63, 2^63)`.
* Standard output is a `String`; `fmt.Println` and `fmt.Sprintf` are functions
  producing the text they write.
* A `float64` is a dyadic rational `mant * 2^exp` (every finite double is one),
  so that formatting is exact integer arithmetic.
* Programs with goroutines are transition systems: `step` lists the successor
  states of a state, one per goroutine the scheduler may pick.
* A `main` of sequential code is a value of type `Exit`, the output and exit
  code of its one run, as a function of the clock or the file system where it
  reads them.  A server `main` takes fuel and returns `none` while it is still
  serving.
* All 49 programs are embedded: `main` and the functions it calls.  Some
  functions that no `main` calls are embedded as well; the others take no part
  in any run and are left out.
-/

namespace GoBytes

/-! ## fmt -/

/-- A finite `float64` value, `mant * 2 ^ exp`. -/
structure Float64 where
  mant : Int
  exp : Int
deriving DecidableEq, Repr

/-- An operand handed to a `fmt` function: a value of type `any` together with
its dynamic type. -/
inductive Arg where
  | str (s : String)
  | int (i : Int)
  | float (f : Float64)
  /-- a `float32`, as the dyadic value it holds -/
  | float32 (f : Float64)
  | bool (b : Bool)
  /-- a `[]int`, as the list of its elements -/
  | ints (xs : List Int)
  /-- a `map[string]string`, as the list of its entries -/
  | mapSS (m : List (String × String))
  /-- a `map[string]int`, as the list of its entries -/
  | mapSI (m : List (String × Int))
  /-- an `error` of dynamic type `typ` whose method `Error` returns `msg` -/
  | err (typ : String) (msg : String)
deriving DecidableEq, Repr

/-- Decimal digits of `n`, left-padded with zeros to `width` characters. -/
def padDigits (width n : Nat) : String :=
  let d := toString n
  String.mk (List.replicate (width - d.length) '0') ++ d

/-- Nearest integer to `num / den`, ties to even (`den` positive). -/
def roundHalfEven (num den : Nat) : Nat :=
  let q := num / den
  let r := num % den
  if 2 * r > den then q + 1
  else if 2 * r = den ∧ q % 2 = 1 then q + 1
  else q

/-- The verb `%.<prec>f`: the value rounded correctly to `prec` decimals,
printed as integer part, a point and exactly `prec` digits. -/
def formatFixed (f : Float64) (prec : Nat) : String :=
  let scaled := f.mant.natAbs * 10 ^ prec
  let n := if 0 ≤ f.exp then scaled * 2 ^ f.exp.toNat
           else roundHalfEven scaled (2 ^ (-f.exp).toNat)
  let sign := if f.mant < 0 then "-" else ""
  let whole := toString (n / 10 ^ prec)
  if prec = 0 then sign ++ whole
  else sign ++ whole ++ "." ++ padDigits prec (n % 10 ^ prec)

/-- Whether the decimal with `prec` fractional digits nearest to `f` reads back
as `f`: it lies within half a unit in the last place of `f`, which is
`2 ^ exp` for a mantissa of full width (53 bits, 24 for a `float32`).  A value
with a non-negative exponent is an integer. -/
def roundTrips (f : Float64) (prec : Nat) : Bool :=
  if 0 ≤ f.exp then true
  else
    let k := (-f.exp).toNat
    let n := roundHalfEven (f.mant.natAbs * 10 ^ prec) (2 ^ k)
    let a := n * 2 ^ k
    let b := f.mant.natAbs * 10 ^ prec
    decide ((a - b + (b - a)) * 2 < 10 ^ prec)

/-- The shortest decimal that reads back as `f`: the format of a float under
`%v` and in `encoding/json`, for values of ordinary size, which are printed
without exponent. -/
def formatShortest (f : Float64) : String :=
  match (List.range 18).find? (roundTrips f) with
  | some p => formatFixed f p
  | none => formatFixed f 17

/-- Whether the characters `a` come before `b` in the order of strings. -/
def charsLt : List Char → List Char → Bool
  | [], [] => false
  | [], _ :: _ => true
  | _ :: _, [] => false
  | a :: as, b :: bs =>
    if a.toNat < b.toNat then true
    else if b.toNat < a.toNat then false
    else charsLt as bs

/-- Insertion of an entry into a list of entries sorted by key. -/
def insertByKey {ν : Type} (e : String × ν) : List (String × ν) → List (String × ν)
  | [] => [e]
  | x :: xs => if charsLt x.1.toList e.1.toList then x :: insertByKey e xs else e :: x :: xs

/-- The entries of a map in the order `fmt` prints them: sorted by key. -/
def sortByKey {ν : Type} (m : List (String × ν)) : List (String × ν) :=
  m.foldr insertByKey []

/-- Default format (`%v`) of an operand. -/
def Arg.format : Arg → String
  | .str s => s
  | .int i => toString i
  | .float f => formatShortest f
  | .float32 f => formatShortest f
  | .bool b => if b then "true" else "false"
  | .ints xs => "[" ++ " ".intercalate (xs.map toString) ++ "]"
  | .mapSS m =>
      "map[" ++ " ".intercalate ((sortByKey m).map fun e => e.1 ++ ":" ++ e.2) ++ "]"
  | .mapSI m =>
      "map[" ++ " ".intercalate ((sortByKey m).map fun e => e.1 ++ ":" ++ toString e.2) ++ "]"
  | .err _ msg => msg

/-- The verb `%T`: the name of the dynamic type of an operand. -/
def Arg.typeName : Arg → String
  | .str _ => "string"
  | .int _ => "int"
  | .float _ => "float64"
  | .float32 _ => "float32"
  | .bool _ => "bool"
  | .ints _ => "[]int"
  | .mapSS _ => "map[string]string"
  | .mapSI _ => "map[string]int"
  | .err typ _ => typ

/-- The function `fmt.Println`: operands in default format, separated by single
spaces, followed by a newline. -/
def Println (args : List Arg) : String :=
  " ".intercalate (args.map Arg.format) ++ "\n"

/-- Whether the operand is of type `string`. -/
def Arg.isStr : Arg → Bool
  | .str _ => true
  | _ => false

/-- The function `fmt.Sprint`: operands in default format, with a space
between two operands when neither is a string. -/
def Sprint : List Arg → String
  | [] => ""
  | [a] => a.format
  | a :: b :: rest =>
      a.format ++ (if a.isStr || b.isStr then "" else " ") ++ Sprint (b :: rest)

/-- Value of a decimal digit character. -/
def digitVal (c : Char) : Nat := c.toNat - '0'.toNat

/-- Worker of `Sprintf` over the characters of the format string.  The verbs
are `%s` of a string, `%d` of an integer, `%.Nf` of a float with a one-digit
precision, `%v` and `%T` of any operand, and `%%`; a verb without operand prints Go's
`%!verb(MISSING)` marker.  Every other character is copied unchanged; other
verbs and operand kinds are outside this model. -/
def sprintfAux : List Char → List Arg → String
  | [], _ => ""
  | '%' :: '%' :: rest, args => "%" ++ sprintfAux rest args
  | '%' :: '.' :: d :: 'f' :: rest, .float f :: args =>
      formatFixed f (digitVal d) ++ sprintfAux rest args
  | '%' :: 's' :: rest, .str a :: args => a ++ sprintfAux rest args
  | '%' :: 'd' :: rest, .int i :: args => toString i ++ sprintfAux rest args
  | '%' :: 'v' :: rest, a :: args => a.format ++ sprintfAux rest args
  | '%' :: 'T' :: rest, a :: args => a.typeName ++ sprintfAux rest args
  | '%' :: c :: rest, [] =>
      "%!" ++ String.singleton c ++ "(MISSING)" ++ sprintfAux rest []
  | c :: rest, args => String.singleton c ++ sprintfAux rest args

/-- The function `fmt.Sprintf`. -/
def Sprintf (format : String) (args : List Arg) : String :=
  sprintfAux format.toList args

/-- The function `fmt.Printf`: the text it writes to standard output. -/
def Printf (format : String) (args : List Arg) : String := Sprintf format args

/-! ## Go `int` -/

/-- Reduction of a mathematical integer to Go's 64-bit `int`. -/
def wrapInt (x : Int) : Int := (x + 2 ^ 63) % 2 ^ 64 - 2 ^ 63

/-- The values of Go's `int`. -/
def IsInt (x : Int) : Prop := -(2 ^ 63) ≤ x ∧ x < 2 ^ 63

/-- Integer division `a / b`, truncated toward zero; `none` is the run-time
panic on division by zero. -/
def intDiv (a b : Int) : Option Int :=
  if b = 0 then none else some (wrapInt (Int.tdiv a b))

/-- Integer remainder `a % b`, with the sign of `a`; `none` is the run-time
panic on division by zero. -/
def intRem (a b : Int) : Option Int :=
  if b = 0 then none else some (wrapInt (Int.tmod a b))

/-! ## How a run ends -/

/-- The end of a run of a program: what it has written and its exit code. -/
structure Exit where
  stdout : String
  stderr : String
  code : Nat
deriving DecidableEq, Repr

/-- The program ran to the end of `main` (or to a `return` in it), having
written `out`. -/
def exited (out : String) : Exit := { stdout := out, stderr := "", code := 0 }

/-- The program died of a run-time panic after writing `out`: the runtime
reports it on standard error (the goroutine trace that follows is left out)
and exits with code 2. -/
def panicked (out : String) (msg : String) : Exit :=
  { stdout := out, stderr := "panic: " ++ msg ++ "\n", code := 2 }

/-! ## Floating point

Arithmetic on `float64` is the exact result rounded to the nearest value with
a 53-bit mantissa, ties to even.  Overflow, subnormal values, infinities and
NaN are outside this model. -/

/-- Worker of `bitLen`. -/
def bitLenAux : Nat → Nat → Nat
  | 0, _ => 0
  | fuel + 1, n => if n = 0 then 0 else bitLenAux fuel (n / 2) + 1

/-- Number of binary digits of `n`. -/
def bitLen (n : Nat) : Nat := bitLenAux n n

/-- The positive rational `n / d` rounded to a mantissa of `bits` bits. -/
def roundRat (bits n d : Nat) : Float64 :=
  if n = 0 ∨ d = 0 then ⟨0, 0⟩
  else
    let l : Int := (bitLen n : Int) - (bitLen d : Int)
    -- whether `2 ^ l ≤ n / d`
    let ge : Bool := if 0 ≤ l then decide (d * 2 ^ l.toNat ≤ n) else decide (d ≤ n * 2 ^ (-l).toNat)
    let lg : Int := if ge then l else l - 1
    let e : Int := lg - ((bits : Int) - 1)
    let m : Nat := if 0 ≤ e then roundHalfEven n (d * 2 ^ e.toNat)
                   else roundHalfEven (n * 2 ^ (-e).toNat) d
    if m = 2 ^ bits then ⟨(2 ^ (bits - 1) : Nat), e + 1⟩ else ⟨m, e⟩

/-- The signed rational `n / d` as a `float64`. -/
def Float64.ofRat (n : Int) (d : Nat) : Float64 :=
  let r := roundRat 53 n.natAbs d
  if n < 0 then ⟨-r.mant, r.exp⟩ else r

/-- The conversion `float64(i)`. -/
def Float64.ofInt (i : Int) : Float64 := Float64.ofRat i 1

/-- Numerator of the exact value of `f`, over `Float64.den f`. -/
def Float64.num (f : Float64) : Int := if 0 ≤ f.exp then f.mant * 2 ^ f.exp.toNat else f.mant

/-- Denominator of the exact value of `f`. -/
def Float64.den (f : Float64) : Nat := if 0 ≤ f.exp then 1 else 2 ^ (-f.exp).toNat

/-- The sum `a + b`. -/
def Float64.add (a b : Float64) : Float64 :=
  Float64.ofRat (a.num * b.den + b.num * a.den) (a.den * b.den)

/-- The product `a * b`. -/
def Float64.mul (a b : Float64) : Float64 :=
  Float64.ofRat (a.num * b.num) (a.den * b.den)

/-- The quotient `a / b`, for `b` other than zero. -/
def Float64.div (a b : Float64) : Float64 :=
  let n := a.num * b.den * (if b.num < 0 then -1 else 1)
  Float64.ofRat n (b.num.natAbs * a.den)

/-- Worker of `isqrt`: the bits of the root from the highest down. -/
def isqrtAux : Nat → Nat → Nat → Nat
  | 0, _, r => r
  | b + 1, n, r => if (r + 2 ^ b) * (r + 2 ^ b) ≤ n then isqrtAux b n (r + 2 ^ b)
                   else isqrtAux b n r

/-- Integer square root, rounded down. -/
def isqrt (n : Nat) : Nat := isqrtAux (bitLen n / 2 + 1) n 0

/-- The function `math.Sqrt` on a value that is not negative: the root of the
value scaled to an integer of at least 120 bits, which fixes the rounding. -/
def Float64.sqrt (f : Float64) : Float64 :=
  let t := f.exp.natAbs + 60
  let n := f.mant.natAbs * 2 ^ (f.exp + 2 * (t : Int)).toNat
  let r := isqrt n
  if r * r = n then roundRat 53 r (2 ^ t) else roundRat 53 (2 * r + 1) (2 ^ (t + 1))

/-- The constant `math.Pi` as a `float64`. -/
def Pi : Float64 := Float64.ofRat 314159265358979323846264338327950288 (10 ^ 35)

/-! ## encoding/json -/

/-- A JSON string literal, for text without characters that need escaping. -/
def jsonString (s : String) : String := "\"" ++ s ++ "\""

/-! ## strings and strconv -/

/-- White space in the sense of `strings.TrimSpace`, for text in ASCII. -/
def isSpace (c : Char) : Bool :=
  c = ' ' ∨ c = '\t' ∨ c = '\n' ∨ c = '\r' ∨ c.toNat = 11 ∨ c.toNat = 12

/-- The function `strings.TrimSpace`. -/
def TrimSpace (s : String) : String :=
  String.mk ((s.toList.dropWhile isSpace).reverse.dropWhile isSpace).reverse

/-- Whether `suffix` ends the characters `cs`. -/
def hasSuffixChars (cs suffix : List Char) : Bool :=
  decide (cs.drop (cs.length - suffix.length) = suffix)

/-- The function `strings.HasSuffix`. -/
def HasSuffix (s suffix : String) : Bool := hasSuffixChars s.toList suffix.toList

/-- The upper-case form of an ASCII letter. -/
def upperChar (c : Char) : Char :=
  if 'a'.toNat ≤ c.toNat ∧ c.toNat ≤ 'z'.toNat then Char.ofNat (c.toNat - 32) else c

/-- The function `strings.ToUpper`, for text in ASCII. -/
def ToUpper (s : String) : String := String.mk (s.toList.map upperChar)

/-- The value of a run of decimal digits, `none` when a character is not a
digit. -/
def parseDigits : List Char → Nat → Option Nat
  | [], acc => some acc
  | c :: cs, acc =>
    if '0'.toNat ≤ c.toNat ∧ c.toNat ≤ '9'.toNat then parseDigits cs (acc * 10 + digitVal c)
    else none

/-- The function `strconv.Atoi`; `none` is the error it returns for text that
is not a decimal integer or does not fit an `int`. -/
def Atoi (s : String) : Option Int :=
  let parse (cs : List Char) (neg : Bool) : Option Int :=
    match cs with
    | [] => none
    | _ => (parseDigits cs 0).bind fun n =>
        let v : Int := if neg then -(n : Int) else n
        if -(2 ^ 63) ≤ v ∧ v < 2 ^ 63 then some v else none
  match s.toList with
  | '-' :: cs => parse cs true
  | '+' :: cs => parse cs false
  | cs => parse cs false

/-- The function `strconv.Itoa`. -/
def Itoa (i : Int) : String := toString i

/-! ## basic-functions/main.go -/

namespace BasicFunctions

/-- Source: `func greet(name string)`, the line it prints. -/
def greet (name : String) : String := Println [.str "Hello", .str name]

/-- Source: `func square(n int) int { return n * n }`. -/
def square (n : Int) : Int := wrapInt (n * n)

/-- Source: `func double(n int) int { return n * 2 }`. -/
def double (n : Int) : Int := wrapInt (n * 2)

/-- Source: `main`: `result := double(4); fmt.Println(result)`; the value is
the text written to standard output. -/
def main : String :=
  let result := double 4
  Println [.int result]

end BasicFunctions

/-! ## switch-statements/main.go -/

namespace SwitchStatements

/-- The `switch status` statement of `main`: the text written to standard
output on the branch taken. -/
def switchStatus (status : String) : String :=
  if status = "success" then Println [.str "Operation completed successfully."]
  else if status = "error" then Println [.str "Something went wrong."]
  else if status = "loading" then Println [.str "Please wait..."]
  else Println [.str "Unknown status"]

/-- Source: `main`, with `status := "terminated"`. -/
def main : String :=
  let status := "terminated"
  switchStatus status

end SwitchStatements

/-! ## string-formatting/main.go -/

namespace StringFormatting

/-- The `float64` nearest to the literal `9.99`:
`5623870034678907 / 2^49` (bits `0x1.3fae147ae147bp+3`). -/
def price : Float64 := ⟨5623870034678907, -49⟩

/-- Source: `name := "Notebook"`. -/
def name : String := "Notebook"

/-- Source: `message := fmt.Sprintf("%s costs %.2f\n", name, price)`. -/
def message : String := Sprintf "%s costs %.2f\n" [.str name, .float price]

/-- Source: `main`: `fmt.Println(message)`; the text written to standard
output. -/
def main : String := Println [.str message]

end StringFormatting

/-! ## Channels

The built-in channel of the language, as the runtime implements it: a buffer
of `dataqsiz` slots and two queues of parked goroutines.  A goroutine that
cannot complete its operation parks in a queue; the goroutine that arrives
later completes the exchange and makes the parked one runnable again. -/

/-- The goroutines of channel-basics: `main` and the function literal started
by the `go` statement. -/
inductive Gid where
  | main
  | anon
deriving DecidableEq, Repr

/-- A channel of `int`. -/
structure Hchan where
  /-- capacity given to `make` -/
  dataqsiz : Nat
  /-- buffered elements, oldest first -/
  buf : List Int
  closed : Bool
  /-- parked receivers -/
  recvq : List Gid
  /-- parked senders, each with the element it is sending -/
  sendq : List (Gid × Int)
deriving DecidableEq, Repr

/-- The expression `make(chan int, size)`; `make(chan int)` is `makechan 0`. -/
def makechan (size : Nat) : Hchan :=
  { dataqsiz := size, buf := [], closed := false, recvq := [], sendq := [] }

/-- What a send statement `c <- x` does when it is executed. -/
inductive SendOutcome where
  /-- run-time panic "send on closed channel" -/
  | panicClosed
  /-- a receiver `r` was parked: the element is copied to it, `r` becomes
  runnable and the send returns -/
  | handoff (c : Hchan) (r : Gid)
  /-- the element went into a free buffer slot and the send returns -/
  | buffered (c : Hchan)
  /-- nobody to take the element: the sender parks -/
  | parked (c : Hchan)
deriving DecidableEq, Repr

/-- The send operation of goroutine `g` with element `x`.  No program of the
repository sends on a closed channel; that branch is the rule of the language,
which the spec restates ("once closed, no further sends succeed"). -/
def chansend (c : Hchan) (g : Gid) (x : Int) : SendOutcome :=
  if c.closed then .panicClosed
  else match c.recvq with
    | r :: rs => .handoff { c with recvq := rs } r
    | [] =>
      if c.buf.length < c.dataqsiz then .buffered { c with buf := c.buf ++ [x] }
      else .parked { c with sendq := c.sendq ++ [(g, x)] }

/-- What a receive expression `<-c` does when it is executed. -/
inductive RecvOutcome where
  /-- closed and drained: returns at once with the zero value and `ok = false` -/
  | closedEmpty (c : Hchan)
  /-- a sender `s` was parked: the receive returns `x` and `s` becomes runnable -/
  | fromSender (c : Hchan) (x : Int) (s : Gid)
  /-- the receive returns the oldest buffered element -/
  | fromBuffer (c : Hchan) (x : Int)
  /-- nothing to receive: the receiver parks -/
  | parked (c : Hchan)
deriving DecidableEq, Repr

/-- The receive operation of goroutine `g`.  No program of the repository
receives from a closed channel; those branches are the rule of the language,
which the spec restates (queued values are drained, then end-of-stream). -/
def chanrecv (c : Hchan) (g : Gid) : RecvOutcome :=
  match c.closed, c.buf, c.sendq with
  | true, [], _ => .closedEmpty c
  | false, [], (s, x) :: ss => .fromSender { c with sendq := ss } x s
  | false, b :: bs, (s, x) :: ss =>
      .fromSender { c with buf := bs ++ [x], sendq := ss } b s
  | _, b :: bs, _ => .fromBuffer { c with buf := bs } b
  | false, [], [] => .parked { c with recvq := c.recvq ++ [g] }

/-! ## channel-basics/main.go -/

namespace ChannelBasics

/-- Program counter of `main`. -/
inductive MainPc where
  /-- before `numbers := make(chan int)` -/
  | atMake
  /-- before the `go func() ...` statement -/
  | atGo
  /-- before `value := <-numbers` -/
  | atRecv
  /-- parked inside the receive -/
  | recvParked
  /-- made runnable by the sender, the receive has not returned yet -/
  | recvReady
  /-- the receive returned; before `fmt.Println("Received:", value)` -/
  | atPrintln
  /-- `main` returned: the program has exited -/
  | exited
  /-- the program died of a run-time panic -/
  | crashed
deriving DecidableEq, Repr

/-- Program counter of the goroutine started by `go func() ...`. -/
inductive AnonPc where
  | notStarted
  /-- before `numbers <- 100` -/
  | atSend
  /-- parked inside the send -/
  | sendParked
  /-- made runnable by the receiver, the send has not returned yet -/
  | sendReady
  /-- the send returned and with it the function -/
  | returned
deriving DecidableEq, Repr

/-- Observable moments of the exchange, recorded in the order they happen. -/
inductive Event where
  /-- the send statement starts executing -/
  | sendInit
  /-- the receive expression starts executing -/
  | recvInit
  /-- the element reaches the receiving goroutine -/
  | delivered
  /-- the send statement has completed -/
  | sendDone
  /-- the receive expression has completed -/
  | recvDone
deriving DecidableEq, Repr

/-- State of a run of the program. -/
structure State where
  mainPc : MainPc
  anonPc : AnonPc
  /-- the variable `numbers`, once made -/
  numbers : Option Hchan
  /-- the element handed to the receive of `main`, once there is one -/
  value : Option Int
  stdout : String
  /-- the events so far, oldest first -/
  trace : List Event
deriving DecidableEq, Repr

/-- The state in which `main` starts. -/
def init : State :=
  { mainPc := .atMake, anonPc := .notStarted, numbers := none, value := none,
    stdout := "", trace := [] }

/-- One scheduling of `main`; `none` when `main` cannot run. -/
def stepMain (s : State) : Option State :=
  match s.mainPc with
  | .atMake => some { s with mainPc := .atGo, numbers := some (makechan 0) }
  | .atGo => some { s with mainPc := .atRecv, anonPc := .atSend }
  | .atRecv =>
    match s.numbers with
    | none => none
    | some c =>
      match chanrecv c .main with
      | .closedEmpty c1 =>
          some { s with mainPc := .atPrintln, numbers := some c1, value := some 0,
                        trace := s.trace ++ [.recvInit, .recvDone] }
      | .fromSender c1 x _ =>
          some { s with mainPc := .atPrintln, anonPc := .sendReady,
                        numbers := some c1, value := some x,
                        trace := s.trace ++ [.recvInit, .delivered, .recvDone] }
      | .fromBuffer c1 x =>
          some { s with mainPc := .atPrintln, numbers := some c1, value := some x,
                        trace := s.trace ++ [.recvInit, .delivered, .recvDone] }
      | .parked c1 =>
          some { s with mainPc := .recvParked, numbers := some c1,
                        trace := s.trace ++ [.recvInit] }
  | .recvParked => none
  | .recvReady =>
      some { s with mainPc := .atPrintln, trace := s.trace ++ [.recvDone] }
  | .atPrintln =>
      some { s with mainPc := .exited,
                    stdout := s.stdout ++
                      Println [.str "Received:", .int (s.value.getD 0)] }
  | .exited => none
  | .crashed => none

/-- One scheduling of the goroutine sending `v`; `none` when it cannot run.
Nothing runs once `main` has returned or the program has crashed. -/
def stepAnon (v : Int) (s : State) : Option State :=
  if s.mainPc = .exited ∨ s.mainPc = .crashed then none
  else match s.anonPc with
  | .notStarted => none
  | .atSend =>
    match s.numbers with
    | none => none
    | some c =>
      match chansend c .anon v with
      | .panicClosed => some { s with mainPc := .crashed }
      | .handoff c1 _ =>
          some { s with mainPc := .recvReady, anonPc := .returned,
                        numbers := some c1, value := some v,
                        trace := s.trace ++ [.sendInit, .delivered, .sendDone] }
      | .buffered c1 =>
          some { s with anonPc := .returned, numbers := some c1,
                        trace := s.trace ++ [.sendInit, .sendDone] }
      | .parked c1 =>
          some { s with anonPc := .sendParked, numbers := some c1,
                        trace := s.trace ++ [.sendInit] }
  | .sendParked => none
  | .sendReady =>
      some { s with anonPc := .returned, trace := s.trace ++ [.sendDone] }
  | .returned => none

/-- The successors of a state: one for each goroutine that can run. -/
def step (v : Int) (s : State) : List State :=
  (stepMain s).toList ++ (stepAnon v s).toList

/-- The states some run reaches after exactly `n` steps. -/
def runs (v : Int) : Nat → List State
  | 0 => [init]
  | n + 1 => (runs v n).flatMap (step v)

/-- A state that some run of the program sending `v` reaches. -/
def Reachable (v : Int) (s : State) : Prop := ∃ n, s ∈ runs v n

/-- The constant the source sends: `numbers <- 100`. -/
def sent : Int := 100

/-- Whether, reading the trace from the start, every `b` has an `a` before
it. -/
def precedes (a b : Event) : List Event → Bool
  | [] => true
  | e :: es => if e = a then true else if e = b then false else precedes a b es

/-- Every state of every run of at most six steps. -/
def allStates (v : Int) : List State := (List.range 7).flatMap (runs v)

/-- The end of the run in which `main` reaches its receive first and the
goroutine then hands `100` over. -/
def completedRun : State :=
  { mainPc := .exited, anonPc := .returned, numbers := some (makechan 0),
    value := some 100, stdout := "Received: 100\n",
    trace := [.recvInit, .sendInit, .delivered, .sendDone, .recvDone] }

/-- The end of the same run when `v` is sent in place of `100`. -/
def completedRunOf (v : Int) : State :=
  { mainPc := .exited, anonPc := .returned, numbers := some (makechan 0),
    value := some v, stdout := "" ++ Println [.str "Received:", .int v],
    trace := [.recvInit, .sendInit, .delivered, .sendDone, .recvDone] }

/-- The end of the run in which the goroutine reaches its send first, parks,
and is released by the receive of `main`, with `v` sent. -/
def senderFirstRunOf (v : Int) : State :=
  { mainPc := .exited, anonPc := .returned, numbers := some (makechan 0),
    value := some v, stdout := "" ++ Println [.str "Received:", .int v],
    trace := [.sendInit, .recvInit, .delivered, .recvDone, .sendDone] }

/-- The state in which the goroutine has sent `100` before `main` reached its
receive: it is parked in the send. -/
def senderParked : State :=
  { mainPc := .atRecv, anonPc := .sendParked,
    numbers := some { makechan 0 with sendq := [(.anon, 100)] },
    value := none, stdout := "", trace := [.sendInit] }

end ChannelBasics

/-- Result of closing a channel. -/
inductive CloseOutcome where
  /-- run-time panic "close of closed channel" -/
  | panicClosed
  /-- the channel is closed; the parked receivers and senders are released -/
  | closed (c : Hchan) (receivers : List Gid) (senders : List Gid)
deriving DecidableEq, Repr

/-- Modelled from the spec: the operation `close()` of the channel ("marks the
channel closed; safe to call once; subsequent sends fail").  No program of the
repository closes a channel, so there is no source to translate; the model is
the built-in `close`, which releases every parked goroutine. -/
def closechan (c : Hchan) : CloseOutcome :=
  if c.closed then .panicClosed
  else .closed { c with closed := true, recvq := [], sendq := [] }
         c.recvq (c.sendq.map Prod.fst)

/-! ## net/http

The server side of the package as far as the five HTTP programs use it.  The
network is the environment: it decides whether the listener can be opened and
what each call of `Accept` returns. -/

namespace Http

/-- The request fields the handlers look at. -/
structure Request where
  method : String
  path : String
deriving DecidableEq, Repr

/-- The response being built behind an `http.ResponseWriter`. -/
structure ResponseWriter where
  header : List (String × String)
  /-- status code, once the header has been written -/
  status : Option Nat
  body : String
deriving DecidableEq, Repr

/-- A fresh response. -/
def ResponseWriter.fresh : ResponseWriter := { header := [], status := none, body := "" }

/-- The call `w.Header().Set(key, value)`; without effect on the response once
the header has been written. -/
def ResponseWriter.setHeader (w : ResponseWriter) (key value : String) : ResponseWriter :=
  if w.status.isSome then w
  else { w with header := w.header.filter (fun p => p.1 != key) ++ [(key, value)] }

/-- The call `w.WriteHeader(code)`; only the first call counts. -/
def ResponseWriter.WriteHeader (w : ResponseWriter) (code : Nat) : ResponseWriter :=
  if w.status.isSome then w else { w with status := some code }

/-- The call `w.Write(data)`; writes the header with status 200 first when no
header has been written. -/
def ResponseWriter.Write (w : ResponseWriter) (data : String) : ResponseWriter :=
  let w1 := w.WriteHeader 200
  { w1 with body := w1.body ++ data }

/-- The call `fmt.Fprintln(w, args...)`. -/
def Fprintln (w : ResponseWriter) (args : List Arg) : ResponseWriter :=
  w.Write (Println args)

/-- The function `http.Error`. -/
def Error (w : ResponseWriter) (error : String) (code : Nat) : ResponseWriter :=
  let w1 := w.setHeader "Content-Type" "text/plain; charset=utf-8"
  let w2 := w1.setHeader "X-Content-Type-Options" "nosniff"
  Fprintln (w2.WriteHeader code) [.str error]

/-- A handler function `func(w http.ResponseWriter, r *http.Request)`. -/
abbrev Handler := ResponseWriter → Request → ResponseWriter

/-- The registered patterns with their handlers. -/
abbrev ServeMux := List (String × Handler)

/-- The mux `http.DefaultServeMux` at program start. -/
def DefaultServeMux : ServeMux := []

/-- The function `http.HandleFunc` on the default mux. -/
def HandleFunc (mux : ServeMux) (pattern : String) (handler : Handler) : ServeMux :=
  mux ++ [(pattern, handler)]

/-- The handler `http.NotFound`. -/
def NotFound : Handler := fun w _ => Error w "404 page not found" 404

/-- The longer of two candidate subtree patterns. -/
def longer (best : Option (String × Handler)) (p : String × Handler) :
    Option (String × Handler) :=
  match best with
  | none => some p
  | some b => if b.1.length < p.1.length then some p else some b

/-- Handler selection of the mux: a pattern equal to the path wins, then the
longest pattern ending in a slash that the path starts with, then
`NotFound`. -/
def ServeMux.handler (mux : ServeMux) (path : String) : Handler :=
  match mux.find? (fun p => p.1 == path) with
  | some p => p.2
  | none =>
    match (mux.filter (fun p => p.1.endsWith "/" && path.startsWith p.1)).foldl longer none with
    | some p => p.2
    | none => NotFound

/-- What one call of `Accept` on the listener returns. -/
inductive AcceptResult where
  /-- a connection carrying a request -/
  | conn (r : Request)
  /-- a temporary error: the server waits and calls `Accept` again -/
  | tempErr
  /-- any other error: the server stops -/
  | err
deriving DecidableEq, Repr

/-- The network a server runs in. -/
structure Env where
  /-- whether `net.Listen` on the address succeeds -/
  listenOk : Bool
  /-- the result of the `i`-th call of `Accept` -/
  accepts : Nat → AcceptResult

/-- The accept loop of `Server.Serve`, from the `i`-th `Accept` on, allowed
`fuel` calls of `Accept`.  `some log` when the loop has returned (always with
an error), `log` being the responses produced; `none` when it is still
serving after `fuel` calls. -/
def serve (mux : ServeMux) (accepts : Nat → AcceptResult) :
    Nat → Nat → List ResponseWriter → Option (List ResponseWriter)
  | 0, _, _ => none
  | fuel + 1, i, log =>
    match accepts i with
    | .err => some log
    | .tempErr => serve mux accepts fuel (i + 1) log
    | .conn r =>
        serve mux accepts fuel (i + 1) (log ++ [mux.handler r.path .fresh r])

/-- The function `http.ListenAndServe(addr, nil)`: opens the listener and runs
the accept loop on the default mux.  It returns only with an error, either
from `net.Listen` or from the loop. -/
def ListenAndServe (mux : ServeMux) (env : Env) (fuel : Nat) :
    Option (List ResponseWriter) :=
  if env.listenOk then serve mux env.accepts fuel 0 [] else some []

/-- The runs in which `ListenAndServe` returns: the listener cannot be opened,
or some `Accept` fails for good. -/
def Env.Stops (env : Env) : Prop :=
  env.listenOk = false ∨ ∃ i, env.accepts i = .err

/-- A network in which the port is free and every `Accept` brings a
`GET /home`. -/
def servingEnv : Env :=
  { listenOk := true, accepts := fun _ => .conn { method := "GET", path := "/home" } }

/-- A network in which the port is already taken. -/
def portTakenEnv : Env :=
  { listenOk := false, accepts := fun _ => .err }

end Http

/-! ## starting-a-server/main.go -/

namespace StartingAServer

/-- The handler registered for `/home`. -/
def homeHandler : Http.Handler := fun w _ =>
  Http.Fprintln w [.str "Hello from the server"]

/-- Source: `main`.  `some _` when `main` has returned within `fuel` calls of
`Accept`; the error `ListenAndServe` returns is discarded by the source. -/
def main (env : Http.Env) (fuel : Nat) : Option (List Http.ResponseWriter) :=
  let mux := Http.HandleFunc Http.DefaultServeMux "/home" homeHandler
  Http.ListenAndServe mux env fuel

end StartingAServer

/-! ## handlers-and-routes/main.go -/

namespace HandlersAndRoutes

/-- The handler registered for `/`. -/
def rootHandler : Http.Handler := fun w _ => Http.Fprintln w [.str "Home page"]

/-- The handler registered for `/contact`. -/
def contactHandler : Http.Handler := fun w _ => Http.Fprintln w [.str "Contact us"]

/-- The handler registered for `/help`. -/
def helpHandler : Http.Handler := fun w _ => Http.Fprintln w [.str "Help page"]

/-- Source: `main`. -/
def main (env : Http.Env) (fuel : Nat) : Option (List Http.ResponseWriter) :=
  let mux := Http.HandleFunc Http.DefaultServeMux "/" rootHandler
  let mux := Http.HandleFunc mux "/contact" contactHandler
  let mux := Http.HandleFunc mux "/help" helpHandler
  Http.ListenAndServe mux env fuel

end HandlersAndRoutes

/-! ## handling-http-methods/main.go -/

namespace HandlingHttpMethods

/-- The handler registered for `/submit`: the `switch r.Method`. -/
def submitHandler : Http.Handler := fun w r =>
  if r.method = "GET" then Http.Fprintln w [.str "Submit page"]
  else if r.method = "POST" then Http.Fprintln w [.str "Submission received"]
  else Http.Error w "Method not allowed" 405

/-- Source: `main`. -/
def main (env : Http.Env) (fuel : Nat) : Option (List Http.ResponseWriter) :=
  let mux := Http.HandleFunc Http.DefaultServeMux "/submit" submitHandler
  Http.ListenAndServe mux env fuel

end HandlingHttpMethods

/-! ## json-responses/main.go -/

namespace JsonResponses

/-- Source: `type Product struct`. -/
structure Product where
  ID : Int
  Name : String
  Price : Float64
deriving DecidableEq, Repr

/-- The call `json.NewEncoder(w).Encode(product)` with the tags of `Product`;
the second component is the error, and writing to the response never fails
here. -/
def Encode (w : Http.ResponseWriter) (p : Product) : Http.ResponseWriter × Option String :=
  (w.Write ("\x7b" ++ jsonString "id" ++ ":" ++ toString p.ID ++ ","
      ++ jsonString "name" ++ ":" ++ jsonString p.Name ++ ","
      ++ jsonString "price" ++ ":" ++ formatShortest p.Price ++ "\x7d" ++ "\n"),
   none)

/-- The handler registered for `/product`; `12.99` is the double
`7312719894942843 / 2^49`. -/
def productHandler : Http.Handler := fun w _ =>
  let product : Product := { ID := 10, Name := "Notebook", Price := ⟨7312719894942843, -49⟩ }
  let w := w.setHeader "Content-Type" "application/json"
  match Encode w product with
  | (w, some _) => Http.Error w "Failed to encode JSON" 500
  | (w, none) => w

/-- Source: `main`. -/
def main (env : Http.Env) (fuel : Nat) : Option (List Http.ResponseWriter) :=
  let mux := Http.HandleFunc Http.DefaultServeMux "/product" productHandler
  Http.ListenAndServe mux env fuel

end JsonResponses

/-! ## response-headers/main.go -/

namespace ResponseHeaders

/-- The handler registered for `/created`. -/
def createdHandler : Http.Handler := fun w _ =>
  let w := w.setHeader "Content-Type" "text/plain"
  let w := w.WriteHeader 201
  Http.Fprintln w [.str "Some content"]

/-- Source: `main`. -/
def main (env : Http.Env) (fuel : Nat) : Option (List Http.ResponseWriter) :=
  let mux := Http.HandleFunc Http.DefaultServeMux "/created" createdHandler
  Http.ListenAndServe mux env fuel

end ResponseHeaders

/-! ## Run-time panics, slices and maps -/

/-- The message of the panic of an integer division by zero. -/
def divideByZero : String := "runtime error: integer divide by zero"

/-- The message of the panic of an index `i` outside a slice of length `len`. -/
def indexOutOfRange (i len : Nat) : String :=
  "runtime error: index out of range [" ++ toString i ++ "] with length " ++ toString len

/-- The element `xs[i]` of a slice; `none` is the panic of an index out of
range. -/
def index (xs : List Int) (i : Nat) : Option Int := xs.get? i

/-- The assignment `xs[i] = v` on a slice nobody else refers to; `none` is the
panic of an index out of range. -/
def setIndex (xs : List Int) (i : Nat) (v : Int) : Option (List Int) :=
  if i < xs.length then some (xs.set i v) else none

/-- The built-in `copy(dst, src)`: the new contents of `dst`. -/
def copySlice (dst src : List Int) : List Int :=
  let n := min dst.length src.length
  src.take n ++ dst.drop n

/-- The assignment `m[k] = v` on a map. -/
def mapSet {ν : Type} (m : List (String × ν)) (k : String) (v : ν) : List (String × ν) :=
  if m.any (fun e => e.1 == k) then m.map (fun e => if e.1 == k then (k, v) else e)
  else m ++ [(k, v)]

/-- The built-in `delete(m, k)`. -/
def mapDelete {ν : Type} (m : List (String × ν)) (k : String) : List (String × ν) :=
  m.filter (fun e => e.1 != k)

/-- The lookup `v, ok := m[k]`; `none` stands for `ok = false`. -/
def mapGet {ν : Type} (m : List (String × ν)) (k : String) : Option ν :=
  (m.find? (fun e => e.1 == k)).map (fun e => e.2)

/-! ## anonymous-functions/main.go -/

namespace AnonymousFunctions

/-- The function literal assigned to `calculate`. -/
def calculate (a b : Int) : Int := wrapInt (a + b)

/-- Source: `main`. -/
def main : Exit := exited (Println [.int (calculate 3 4)])

end AnonymousFunctions

/-! ## any-type/main.go -/

namespace AnyType

/-- Source: `func describe(value any)`, the text it writes. -/
def describe (value : Arg) : String :=
  Println [.str "Value:", value] ++ Println [.str "Type:", .str (Sprintf "%T" [value])]

/-- Source: `func logValue(label string, v any)`, the text it writes. -/
def logValue (label : String) (v : Arg) : String :=
  Println [.str (label ++ ":"), v] ++ Println [.str "Type:", .str (Sprintf "%T" [v])]

/-- Source: `main`. -/
def main : Exit :=
  exited (logValue "Age" (.int 30) ++ logValue "Name" (.str "Alice")
    ++ logValue "Price" (.float (Float64.ofRat 1999 100)))

end AnyType

/-! ## basic-errors/main.go -/

namespace BasicErrors

/-- Source: `func toSeconds(minutes int) (int, error)`; the error is the text
given to `errors.New`. -/
def toSeconds (minutes : Int) : Int × Option String :=
  if minutes < 0 then (0, some "minutes cannot be negative")
  else (wrapInt (minutes * 60), none)

/-- Source: `func squareRoot(n int) (float64, error)`. -/
def squareRoot (n : Int) : Float64 × Option String :=
  if n < 0 then (⟨0, 0⟩, some "cannot take the square root of a negative number")
  else
    let nFloat := Float64.ofInt n
    (Float64.sqrt nFloat, none)

/-- Source: `main`. -/
def main : Exit :=
  match squareRoot (-4) with
  | (_, some err) => exited (Println [.str "Error:", .err "*errors.errorString" err])
  | (sr, none) => exited (Println [.str "Result:", .float sr])

end BasicErrors

/-! ## boolean-operators/main.go -/

namespace BooleanOperators

/-- Source: `main`. -/
def main : Exit :=
  let loggedIn := true
  let isStaff := false
  let hasPermission := false
  if loggedIn && (isStaff || hasPermission) then exited (Println [.str "Action allowed"])
  else exited (Println [.str "Action denied"])

end BooleanOperators

/-! ## closures/main.go -/

namespace Closures

/-- Source: `func makeAdder(base int) func(int) int`. -/
def makeAdder (base : Int) : Int → Int := fun x => wrapInt (base + x)

/-- The function literal assigned to `inc` in `main`: it increments the
variable `count` it has captured and returns it.  The first component is the
new value of `count`. -/
def inc (count : Int) : Int × Int :=
  let count := wrapInt (count + 1)
  (count, count)

/-- Source: `main`. -/
def main : Exit :=
  let addTen := makeAdder 10
  let out := Println [.int (addTen 5)]
  let out := out ++ Println [.int (addTen 20)]
  let count : Int := 0
  let (count, _) := inc count
  let (_, _) := inc count
  exited out

end Closures

/-! ## copying-slices/main.go -/

namespace CopyingSlices

/-- Source: `main`. -/
def main : Exit :=
  let numbers : List Int := [5, 10, 15]
  let copied : List Int := List.replicate numbers.length 0
  let copied := copySlice copied numbers
  match setIndex copied 2 100 with
  | none => panicked "" (indexOutOfRange 2 copied.length)
  | some copied =>
    let out := Println [.str "numbers:", .ints numbers]
    exited (out ++ Println [.str "copied:", .ints copied])

end CopyingSlices

/-! ## custom-error-types/main.go -/

namespace CustomErrorTypes

/-- Source: `type ValidationError struct`. -/
structure ValidationError where
  ErrorField : String
deriving DecidableEq, Repr

/-- Source: `func (e ValidationError) Error() string`. -/
def ValidationError.Error (e : ValidationError) : String :=
  Sprintf "validation failed for field: %s" [.str e.ErrorField]

/-- Source: `type NotFoundError struct`. -/
structure NotFoundError where
  Resource : String
deriving DecidableEq, Repr

/-- Source: `func (e NotFoundError) Error() string`. -/
def NotFoundError.Error (e : NotFoundError) : String :=
  Sprintf "%s not found" [.str e.Resource]

/-- The values of the interface `error` in this program. -/
inductive Err where
  | validation (e : ValidationError)
  | notFound (e : NotFoundError)
deriving DecidableEq, Repr

/-- The operand an error is for `fmt`. -/
def Err.arg : Err → Arg
  | .validation e => .err "main.ValidationError" e.Error
  | .notFound e => .err "main.NotFoundError" e.Error

/-- Source: `func validateName(name string) error`; `none` is `nil`. -/
def validateName (name : String) : Option Err :=
  if name = "" then some (.validation { ErrorField := "name" }) else none

/-- Source: `func findUser(id int) error`. -/
def findUser (_id : Int) : Option Err :=
  some (.notFound { Resource := "user" })

/-- Source: `main`. -/
def main : Exit :=
  match findUser 7 with
  | some err => exited (Println [.str "Error:", err.arg])
  | none => exited (Println [.str "User found"])

end CustomErrorTypes

/-! ## defer/main.go -/

namespace Defer

/-- Source: `func saveReport()`, the text it writes.  Each `defer` pushes its
call, with the operands evaluated then; the calls run last pushed first when
the function returns. -/
def saveReport : String :=
  let out := Println [.str "Saving report"]
  let deferred : List String := []
  let deferred := Println [.str "Closing resources"] :: deferred
  let deferred := Println [.str "Cleaning temporary data"] :: deferred
  let out := out ++ Println [.str "Writing data"]
  out ++ String.join deferred

/-- Source: `main`. -/
def main : Exit := exited saveReport

end Defer

/-! ## expanding-with-ellipsis/main.go -/

namespace ExpandingWithEllipsis

/-- Source: `func sum(nums ...int) int`. -/
def sum (nums : List Int) : Int := nums.foldl (fun total n => wrapInt (total + n)) 0

/-- Source: `func printAll(items ...string)`, the text it writes. -/
def printAll (items : List String) : String :=
  items.foldl (fun out item => out ++ Println [.str item]) ""

/-- Source: `main`. -/
def main : Exit :=
  let words := ["one", "two", "three"]
  exited (printAll words)

end ExpandingWithEllipsis

/-! ## floats/main.go -/

namespace Floats

/-- Source: `main`.  `29.99` as a `float32` has a mantissa of 24 bits. -/
def main : Exit :=
  let price : Float64 := roundRat 24 2999 100
  let temp : Float64 := Float64.ofRat 255 10
  let out := Printf "Price type: %T\n" [.float32 price]
  let out := out ++ Printf "Temperature type: %T\n" [.float temp]
  let height : Float64 := Float64.ofRat 175 100
  exited (out ++ Printf "Height type: %T\n" [.float height])

end Floats

/-! ## function-values/main.go -/

namespace FunctionValues

/-- Source: `func greet()`, the text it writes. -/
def greet : String := Println [.str "Hello!"]

/-- Source: `func add(a int, b int) int`.  A value of type
`func(int, int) int` returns `none` when it panics. -/
def add (a b : Int) : Option Int := some (wrapInt (a + b))

/-- Source: `func subtract(a int, b int) int`. -/
def subtract (a b : Int) : Option Int := some (wrapInt (a - b))

/-- Source: `func multiply(a int, b int) int`. -/
def multiply (a b : Int) : Option Int := some (wrapInt (a * b))

/-- Source: `func divide(a int, b int) int`. -/
def divide (a b : Int) : Option Int := intDiv a b

/-- Source: `main`. -/
def main : Exit :=
  let op : Int → Int → Option Int := multiply
  match op 10 2 with
  | none => panicked "" divideByZero
  | some r =>
    let out := Println [.int r]
    let op : Int → Int → Option Int := divide
    match op 10 2 with
    | none => panicked out divideByZero
    | some r => exited (out ++ Println [.int r])

end FunctionValues

/-! ## go-maps/main.go -/

namespace GoMaps

/-- Source: `main`. -/
def main : Exit :=
  let countries : List (String × String) :=
    [("uk", "United Kingdom"), ("fr", "France"), ("de", "Germany")]
  let countries := mapSet countries "us" "United States"
  let countries := mapSet countries "fr" "French Republic"
  let countries := mapDelete countries "de"
  exited (Println [.mapSS countries])

end GoMaps

/-! ## go-slices/main.go -/

namespace GoSlices

/-- Source: `main`. -/
def main : Exit :=
  let numbers : List Int := [10, 20, 30]
  let out := Println [.str "Original slice:", .ints numbers]
  match index numbers 0 with
  | none => panicked out (indexOutOfRange 0 numbers.length)
  | some first =>
    let out := out ++ Println [.str "First item:", .int first]
    let out := out ++ Println [.str "Original slice length:", .int numbers.length]
    let numbers := numbers ++ [40, 50, 60]
    let out := out ++ Println [.str "New slice length:", .int numbers.length]
    exited (out ++ Println [.str "New slice:", .ints numbers])

end GoSlices

/-! ## go-structs/main.go -/

namespace GoStructs

/-- Source: `type Book struct`. -/
structure Book where
  Title : String
  Author : String
  Year : Int
deriving DecidableEq, Repr

/-- Source: `main`. -/
def main : Exit :=
  let b : Book := { Title := "Go in Practice", Author := "Alice Smith", Year := 2025 }
  let out := Println [.str "Title:", .str b.Title]
  let out := out ++ Println [.str "Author:", .str b.Author]
  exited (out ++ Println [.str "Year:", .int b.Year])

end GoStructs

/-! ## goroutine-basics/main.go

Two goroutines and no synchronisation: `main` does not wait for `sayHello`,
and the program ends when `main` returns. -/

namespace GoroutineBasics

/-- Source: `func sayHello()`, the text it writes. -/
def sayHello : String := Println [.str "Hello from a goroutine"]

/-- Program counter of `main`. -/
inductive MainPc where
  /-- before `go sayHello()` -/
  | atGo
  /-- before `fmt.Println("Hello from main")` -/
  | atPrintln
  /-- at the end of `main`, the process still alive -/
  | atReturn
  /-- `main` returned: the program has exited -/
  | exited
deriving DecidableEq, Repr

/-- Program counter of the goroutine running `sayHello`. -/
inductive HelloPc where
  | notStarted
  /-- before its `fmt.Println` -/
  | atPrintln
  | returned
deriving DecidableEq, Repr

/-- State of a run of the program. -/
structure State where
  mainPc : MainPc
  helloPc : HelloPc
  stdout : String
deriving DecidableEq, Repr

/-- The state in which `main` starts. -/
def init : State := { mainPc := .atGo, helloPc := .notStarted, stdout := "" }

/-- One scheduling of `main`; `none` when `main` cannot run. -/
def stepMain (s : State) : Option State :=
  match s.mainPc with
  | .atGo => some { s with mainPc := .atPrintln, helloPc := .atPrintln }
  | .atPrintln =>
      some { s with mainPc := .atReturn, stdout := s.stdout ++ Println [.str "Hello from main"] }
  | .atReturn => some { s with mainPc := .exited }
  | .exited => none

/-- One scheduling of the goroutine; `none` when it cannot run.  Nothing runs
once `main` has returned. -/
def stepHello (s : State) : Option State :=
  if s.mainPc = .exited then none
  else match s.helloPc with
  | .notStarted => none
  | .atPrintln => some { s with helloPc := .returned, stdout := s.stdout ++ sayHello }
  | .returned => none

/-- The successors of a state: one for each goroutine that can run. -/
def step (s : State) : List State := (stepMain s).toList ++ (stepHello s).toList

/-- The states some run reaches after exactly `n` steps. -/
def runs : Nat → List State
  | 0 => [init]
  | n + 1 => (runs n).flatMap step

/-- Every state of every run of at most four steps. -/
def allStates : List State := (List.range 5).flatMap runs

/-- The texts a run can have written when the program exits. -/
def outputs : List String :=
  ["Hello from main\n", "Hello from a goroutine\nHello from main\n",
   "Hello from main\nHello from a goroutine\n"]

end GoroutineBasics

/-! ## introduction-to-interfaces/main.go -/

namespace IntroductionToInterfaces

/-- Source: `type ConsoleLogger struct{}`. -/
structure ConsoleLogger where
deriving DecidableEq, Repr

/-- Source: `func (l ConsoleLogger) Log(message string)`, the text it writes. -/
def ConsoleLogger.Log (_l : ConsoleLogger) (message : String) : String :=
  Println [.str message]

/-- Source: `type PrefixedLogger struct`. -/
structure PrefixedLogger where
  Prefix : String
deriving DecidableEq, Repr

/-- Source: `func (l PrefixedLogger) Log(message string)`, the text it writes. -/
def PrefixedLogger.Log (l : PrefixedLogger) (message : String) : String :=
  Println [.str l.Prefix, .str message]

/-- The values of the interface `Logger` in this program. -/
inductive Logger where
  | console (l : ConsoleLogger)
  | prefixed (l : PrefixedLogger)
deriving DecidableEq, Repr

/-- The method `Log` called through the interface. -/
def Logger.Log : Logger → String → String
  | .console l, m => l.Log m
  | .prefixed l, m => l.Log m

/-- Source: `func runLog(l Logger, m string)`, the text it writes. -/
def runLog (l : Logger) (m : String) : String := l.Log m

/-- Source: `main`. -/
def main : Exit :=
  let plain : ConsoleLogger := {}
  let info : PrefixedLogger := { Prefix := "[INFO]" }
  let out := runLog (.console plain) "Starting application"
  exited (out ++ runLog (.prefixed info) "User logged in")

end IntroductionToInterfaces

/-! ## json-tags/main.go -/

namespace JsonTags

/-- Source: `type Product struct`. -/
structure Product where
  ID : Int
  Name : String
  Price : Float64
deriving DecidableEq, Repr

/-- The call `json.Marshal(product)` with the tags of `Product`: the bytes; the
error is always `nil` for this type. -/
def Marshal (p : Product) : String :=
  "\x7b" ++ jsonString "id" ++ ":" ++ toString p.ID ++ ","
    ++ jsonString "name" ++ ":" ++ jsonString p.Name ++ ","
    ++ jsonString "price" ++ ":" ++ formatShortest p.Price ++ "\x7d"

/-- Source: `main`; the field `Price` left out of the literal is zero. -/
def main : Exit :=
  let product : Product := { ID := 1, Name := "Notebook", Price := ⟨0, 0⟩ }
  let data := Marshal product
  exited (Println [.str data])

end JsonTags

/-! ## time -/

/-- A reading of the clock, as `time.Now` returns it. -/
structure Time where
  year : Nat
  month : Nat
  day : Nat
  hour : Nat
  minute : Nat
  second : Nat
  nanosecond : Nat
  /-- seconds east of UTC -/
  zoneOffset : Int
  /-- abbreviation of the zone, such as `UTC` -/
  zoneName : String
  /-- monotonic clock reading in nanoseconds -/
  mono : Int
deriving DecidableEq, Repr

/-- Year, month and day with `sep` between them. -/
def Time.date (t : Time) (sep : String) : String :=
  padDigits 4 t.year ++ sep ++ padDigits 2 t.month ++ sep ++ padDigits 2 t.day

/-- Hour, minute and second as `15:04:05`. -/
def Time.clock (t : Time) : String :=
  padDigits 2 t.hour ++ ":" ++ padDigits 2 t.minute ++ ":" ++ padDigits 2 t.second

/-- The method `Format` for the two layouts the programs use, `2006-01-02` and
`15:04:05`; other layouts are outside this model. -/
def Time.Format (t : Time) (layout : String) : String :=
  if layout = "2006-01-02" then t.date "-"
  else if layout = "15:04:05" then t.clock
  else layout

/-- The fraction of the second as `.999999999` prints it: no trailing zeros,
nothing at all for a whole second. -/
def Time.fraction (t : Time) : String :=
  if t.nanosecond = 0 then ""
  else "." ++ String.mk
    (((padDigits 9 t.nanosecond).toList.reverse.dropWhile (fun c => c = '0')).reverse)

/-- The zone offset as `-0700` prints it. -/
def Time.offset (t : Time) : String :=
  (if t.zoneOffset < 0 then "-" else "+")
    ++ padDigits 2 (t.zoneOffset.natAbs / 3600)
    ++ padDigits 2 (t.zoneOffset.natAbs % 3600 / 60)

/-- The monotonic reading as `String` appends it. -/
def Time.monotonic (t : Time) : String :=
  let m2 := t.mono.natAbs
  let m1 := m2 / 1000000000
  let m2 := m2 % 1000000000
  let m0 := m1 / 1000000000
  let m1 := m1 % 1000000000
  " m=" ++ (if t.mono < 0 then "-" else "+")
    ++ (if m0 = 0 then toString m1 else toString m0 ++ padDigits 9 m1)
    ++ "." ++ padDigits 9 m2

/-- The method `String`, which `fmt` uses to print a `time.Time`. -/
def Time.String (t : Time) : String :=
  t.date "-" ++ " " ++ t.clock ++ t.fraction ++ " " ++ t.offset ++ " " ++ t.zoneName
    ++ t.monotonic

/-! ## log -/

/-- The function `log.Println` at time `now`: the line it writes to standard
error, the date and time followed by the operands. -/
def logPrintln (now : Time) (args : List Arg) : String :=
  now.date "/" ++ " " ++ now.clock ++ " " ++ Println args

/-- The line `log.Fatal` writes to standard error at time `now` before it
exits with code 1: the operands as `fmt.Sprint` formats them. -/
def logFatal (now : Time) (args : List Arg) : String :=
  now.date "/" ++ " " ++ now.clock ++ " " ++ Sprint args ++ "\n"

/-! ## log-package/main.go -/

namespace LogPackage

/-- Source: `func loadConfig() error`; the error is the text given to
`errors.New`, `none` is `nil`. -/
def loadConfig : Option String := some "config file not found"

/-- Source: `func connect() error`. -/
def connect : Option String := some "database not reachable"

/-- Source: `func loadUser() error`. -/
def loadUser : Option String := none

/-- Source: `main`; `clock i` is the `i`-th reading of the clock by the
logger. -/
def main (clock : Nat → Time) : Exit :=
  let log := logPrintln (clock 0) [.str "Starting service"]
  let err := loadUser
  match err with
  | some e =>
      { stdout := "",
        stderr := log ++ logFatal (clock 1)
          [.str "Critical failure, shutting down:", .err "*errors.errorString" e],
        code := 1 }
  | none =>
      { stdout := "",
        stderr := log ++ logPrintln (clock 1) [.str "Service started successfully"],
        code := 0 }

end LogPackage

/-! ## working-with-time/main.go -/

namespace WorkingWithTime

/-- Source: `main`; `now` is what `time.Now()` returns. -/
def main (now : Time) : Exit :=
  let out := Println [.str "Full:", .str now.String]
  let out := out ++ Println [.str "Date:", .str (now.Format "2006-01-02")]
  exited (out ++ Println [.str "Time:", .str (now.Format "15:04:05")])

end WorkingWithTime

/-- A reading of the clock used as an example: 10 November 2009, 23:00:00.5
UTC, 12345 ns after the start of the process. -/
def sampleTime : Time :=
  { year := 2009, month := 11, day := 10, hour := 23, minute := 0, second := 0,
    nanosecond := 500000000, zoneOffset := 0, zoneName := "UTC", mono := 12345 }

/-! ## map-comma-ok-idiom/main.go -/

namespace MapCommaOkIdiom

/-- Source: `main`. -/
def main : Exit :=
  let emails : List (String × String) :=
    [("alice", "alice@example.com"), ("bob", "bob@example.com")]
  let username := "sarah"
  match mapGet emails username with
  | none => exited (Println [.str "User not found:", .str username])
  | some email => exited (Println [.str "Email:", .str email])

end MapCommaOkIdiom

/-! ## maps-reference-semantics/main.go -/

namespace MapsReferenceSemantics

/-- Source: `func addScore(scores map[string]int, name string, amount int)`.
A map is a reference: the function returns the map as the caller sees it
afterwards.  A key that is absent reads as zero. -/
def addScore (scores : List (String × Int)) (name : String) (amount : Int) :
    List (String × Int) :=
  mapSet scores name (wrapInt ((mapGet scores name).getD 0 + amount))

/-- Source: `func incrementCount(m map[string]int, word string)`. -/
def incrementCount (m : List (String × Int)) (word : String) : List (String × Int) :=
  mapSet m word (wrapInt ((mapGet m word).getD 0 + 1))

/-- Source: `main`. -/
def main : Exit :=
  let counts : List (String × Int) := []
  let counts := incrementCount counts "apple"
  let counts := incrementCount counts "apple"
  let counts := incrementCount counts "banana"
  exited (Println [.mapSI counts])

end MapsReferenceSemantics

/-! ## math-operators/main.go -/

namespace MathOperators

/-- Source: `main`. -/
def main : Exit :=
  let a : Int := 10
  let b : Int := 3
  let out := Println [.str "a + b =", .int (wrapInt (a + b))]
  let out := out ++ Println [.str "a - b =", .int (wrapInt (a - b))]
  let out := out ++ Println [.str "a * b =", .int (wrapInt (a * b))]
  match intDiv a b with
  | none => panicked out divideByZero
  | some q =>
    let out := out ++ Println [.str "a / b =", .int q]
    match intRem a b with
    | none => panicked out divideByZero
    | some r =>
      let out := out ++ Println [.str "a % b =", .int r]
      let x := Float64.ofRat 10 1
      let y := Float64.ofRat 3 1
      let out := out ++ Println [.str "x / y =", .float (x.div y)]
      let c := Float64.ofRat 12 1
      let d := Float64.ofRat 5 1
      let e := Float64.ofRat 2 1
      let result := c.add ((d.mul e).mul d)
      let out := out ++ Println [.str "Result using parentheses:", .float result]
      let out := out ++ Println [.str "Pi:", .float Pi]
      exited (out ++ Println [.str "Square root of 16:", .float (Float64.ofRat 16 1).sqrt])

end MathOperators

/-! ## methods-and-receivers/main.go -/

namespace MethodsAndReceivers

/-- Source: `type User struct`. -/
structure User where
  FirstName : String
  LastName : String
deriving DecidableEq, Repr

/-- Source: `func (u User) FullName() string`. -/
def User.FullName (u : User) : String := u.FirstName ++ " " ++ u.LastName

/-- Source: `type Rectangle struct`. -/
structure Rectangle where
  Height : Int
  Width : Int
deriving DecidableEq, Repr

/-- Source: `func (r Rectangle) Area() int`. -/
def Rectangle.Area (r : Rectangle) : Int := wrapInt (r.Width * r.Height)

/-- Source: `main`. -/
def main : Exit :=
  let rect : Rectangle := { Height := 10, Width := 5 }
  exited (Println [.int rect.Area])

end MethodsAndReceivers

/-! ## multiple-return-values/main.go -/

namespace MultipleReturnValues

/-- Source: `func divide(a, b int) (int, int, bool)`. -/
def divide (a b : Int) : Int × Int × Bool :=
  if b = 0 then (0, 0, false)
  else (wrapInt (Int.tdiv a b), wrapInt (Int.tmod a b), true)

/-- Source: `func minMax(a, b int) (int, int, bool)`. -/
def minMax (a b : Int) : Int × Int × Bool :=
  if a = b then (a, b, false)
  else if a < b then (a, b, true)
  else (b, a, true)

/-- Source: `main`. -/
def main : Exit :=
  let (min, max, ok) := minMax 4 4
  if !ok then exited (Println [.str "The numbers are equal"])
  else
    let out := Println [.str "Min:", .int min]
    exited (out ++ Println [.str "Max:", .int max])

end MultipleReturnValues

/-! ## named-return-values/main.go -/

namespace NamedReturnValues

/-- Source: `func square(n int) (result int)`. -/
def square (n : Int) : Int := wrapInt (n * n)

/-- Source: `func stats(nums []int) (total int, count int)`. -/
def stats (nums : List Int) : Int × Int :=
  nums.foldl (fun (acc : Int × Int) n => (wrapInt (acc.1 + n), wrapInt (acc.2 + 1))) (0, 0)

/-- Source: `main`. -/
def main : Exit :=
  let (total, count) := stats [3, 5, 7]
  let out := Println [.str "Total:", .int total]
  exited (out ++ Println [.str "Count:", .int count])

end NamedReturnValues

/-! ## nil/main.go

The program is not valid Go: its third `if` compares an `int` with `nil`, and
the compiler rejects it.  There is nothing to run, so the embedding is the
type check of the three comparisons. -/

namespace Nil

/-- The types of the variables `scores`, `names` and `value`. -/
inductive Ty where
  | mapStringInt
  | sliceString
  | int
deriving DecidableEq, Repr

/-- The name of a type in a compiler message. -/
def Ty.name : Ty → String
  | .mapStringInt => "map[string]int"
  | .sliceString => "[]string"
  | .int => "int"

/-- Whether `nil` is a value of the type: it is one of map and slice types
(and of pointer, channel, function and interface types), not of `int`. -/
def Ty.hasNil : Ty → Bool
  | .mapStringInt => true
  | .sliceString => true
  | .int => false

/-- The type check of the comparison `x == nil` for the variable `x` of type
`t`. -/
def checkNilComparison (x : String) (t : Ty) : Except String Unit :=
  if t.hasNil then .ok ()
  else .error ("invalid operation: " ++ x ++ " == nil (mismatched types " ++ t.name
    ++ " and untyped nil)")

/-- The type check of `main`: the three conditions in the order of the
source. -/
def build : Except String Unit := do
  checkNilComparison "scores" .mapStringInt
  checkNilComparison "names" .sliceString
  checkNilComparison "value" .int

end Nil

/-! ## creating-packages/main.go

The packages `myapp/greetings` and `myapp/messages` that the program imports
are not part of the repository; their two functions are parameters. -/

namespace CreatingPackages

/-- Source: `main`.  `SayHello name` is the text the call
`greetings.SayHello(name)` writes to standard output and `WelcomeMessage name`
the string `messages.WelcomeMessage(name)` returns, both taken to return. -/
def main (SayHello : String → String) (WelcomeMessage : String → String) : Exit :=
  let out := SayHello "Gary"
  let msg := WelcomeMessage "Gary"
  exited (out ++ Println [.str msg])

end CreatingPackages

/-! ## pointer-basics/main.go -/

namespace PointerBasics

/-- Source: `main`.  The memory holds the variable `score` at address 0; the
pointer `ptr` is that address. -/
def main : Exit :=
  let mem : List Int := [100]
  let ptr : Nat := 0
  let mem := mem.set ptr 150
  exited (Println [.str "Updated score:", .int (mem.getD 0 0)])

end PointerBasics

/-! ## pointer-receivers/main.go -/

namespace PointerReceivers

/-- Source: `type Account struct`. -/
structure Account where
  Owner : String
  Balance : Float64
deriving DecidableEq, Repr

/-- Source: `func (a *Account) Deposit(amount float64)`: the account the
receiver points to, after the call. -/
def Account.Deposit (a : Account) (amount : Float64) : Account :=
  { a with Balance := a.Balance.add amount }

/-- Source: `func (a Account) BalanceInfo() string`. -/
def Account.BalanceInfo (a : Account) : String :=
  Sprintf "%s has a balance of %.2f" [.str a.Owner, .float a.Balance]

/-- Source: `main`. -/
def main : Exit :=
  let acc : Account := { Owner := "Alice", Balance := Float64.ofRat 100 1 }
  let acc := acc.Deposit (Float64.ofRat 50 1)
  let acc := acc.Deposit (Float64.ofRat 25 1)
  exited (Println [.str acc.BalanceInfo])

end PointerReceivers

/-! ## pointers-as-params/main.go -/

namespace PointersAsParams

/-- Source: `type Book struct`. -/
structure Book where
  Title : String
  Pages : Int
deriving DecidableEq, Repr

/-- Source: `func addPages(b *Book, amount int)`: the book `b` points to, after
the call. -/
def addPages (b : Book) (amount : Int) : Book :=
  { b with Pages := wrapInt (b.Pages + amount) }

/-- Source: `main`. -/
def main : Exit :=
  let novel : Book := { Title := "The Explorer", Pages := 200 }
  let novel := addPages novel 50
  exited (Println [.str "Updated pages:", .int novel.Pages])

end PointersAsParams

/-! ## reader-interface/main.go -/

namespace ReaderInterface

/-- The file system as the program meets it. -/
structure Env where
  /-- what `os.Open("example.txt")` gives: `none` for an error, otherwise what
  `io.ReadAll` on the file returns, `none` again for an error and the
  contents otherwise -/
  openFile : Option (Option String)

/-- Source: `func printContents(r io.Reader)`, the text it writes; the reader
is given by what `io.ReadAll` returns on it. -/
def printContents (readAll : Option String) : String :=
  match readAll with
  | none => ""
  | some data => Println [.str data]

/-- Source: `main`; the deferred `file.Close()` runs when `main` returns. -/
def main (env : Env) : Exit :=
  let textReader : Option String := some "Hello from a string reader"
  let out := printContents textReader
  match env.openFile with
  | none => exited out
  | some file => exited (out ++ printContents file)

end ReaderInterface

/-! ## slice-reference-semantics/main.go -/

namespace SliceReferenceSemantics

/-- A slice: the backing array it refers to, its length and its capacity. -/
structure Slice where
  array : Nat
  len : Nat
  cap : Nat
deriving DecidableEq, Repr

/-- The backing arrays allocated so far. -/
abbrev Heap := List (List Int)

/-- The expression `make([]int, len, cap)`. -/
def makeSlice (h : Heap) (len cap : Nat) : Heap × Slice :=
  (h ++ [List.replicate cap 0], { array := h.length, len := len, cap := cap })

/-- The elements of a slice. -/
def elems (h : Heap) (s : Slice) : List Int := (h.getD s.array []).take s.len

/-- The assignment `s[i] = v`; `none` is the panic of an index out of range. -/
def store (h : Heap) (s : Slice) (i : Nat) (v : Int) : Option Heap :=
  if i < s.len then some (h.set s.array ((h.getD s.array []).set i v)) else none

/-- The built-in `append(s, v)`: in place when the capacity allows, otherwise
into a new array of twice the capacity. -/
def append (h : Heap) (s : Slice) (v : Int) : Heap × Slice :=
  if s.len < s.cap then
    (h.set s.array ((h.getD s.array []).set s.len v), { s with len := s.len + 1 })
  else
    let cap := max (2 * s.cap) (s.len + 1)
    (h ++ [elems h s ++ [v] ++ List.replicate (cap - (s.len + 1)) 0],
     { array := h.length, len := s.len + 1, cap := cap })

/-- Source: `func addValue(values []int) []int`. -/
def addValue (h : Heap) (values : Slice) : Heap × Slice := append h values 50

/-- Source: `main`. -/
def main : Exit :=
  let (h, nums) := makeSlice [] 2 2
  match store h nums 0 10 with
  | none => panicked "" (indexOutOfRange 0 nums.len)
  | some h =>
    match store h nums 1 20 with
    | none => panicked "" (indexOutOfRange 1 nums.len)
    | some h =>
      let (h, nums2) := addValue h nums
      let out := Println [.str "Original after append:", .ints (elems h nums)]
      exited (out ++ Println [.str "New slice after append:", .ints (elems h nums2)])

end SliceReferenceSemantics

/-! ## strings-package/main.go -/

namespace StringsPackage

/-- Source: `main`. -/
def main : Exit :=
  let filename := "  report.txt  "
  let trimmed := TrimSpace filename
  let valid := HasSuffix trimmed ".txt"
  let upper := ToUpper trimmed
  let out := Println [.str "Trimmed:", .str trimmed]
  let out := out ++ Println [.str "Valid .txt:", .bool valid]
  exited (out ++ Println [.str "Upper:", .str upper])

end StringsPackage

/-! ## strings-to-numbers/main.go -/

namespace StringsToNumbers

/-- Source: `main`. -/
def main : Exit :=
  let input := "25"
  match Atoi input with
  | none => exited (Println [.str "Invalid input"])
  | some number =>
    let number := wrapInt (number + 10)
    let result := Itoa number
    exited (Println [.str "Result:", .str result])

end StringsToNumbers

/-! ## type-assertions/main.go -/

namespace TypeAssertions

/-- Source: `func describe(value any)`, the text it writes. -/
def describe (value : Arg) : String :=
  match value with
  | .str s => Println [.str "String:", .str s]
  | .int i => Println [.str "Int:", .int i]
  | v => Printf "Unknown type: %T\n" [v]

/-- Source: `main`. -/
def main : Exit :=
  let out := describe (.str "hello")
  let out := out ++ describe (.int 42)
  exited (out ++ describe (.bool true))

end TypeAssertions

/-! ## type-conversion/main.go -/

namespace TypeConversion

/-- Source: `main`. -/
def main : Exit :=
  let a : Int := 10
  let b : Int := 3
  match intDiv a b with
  | none => panicked "" divideByZero
  | some resultInt =>
    let out := Println [.str "Integer division:", .int resultInt]
    let aFloat := Float64.ofInt a
    let bFloat := Float64.ofInt b
    let resultFloat := aFloat.div bFloat
    exited (out ++ Println [.str "Float division:", .float resultFloat])

end TypeConversion

/-! ## type-definitions/main.go -/

namespace TypeDefinitions

/-- Source: `type ProductID int`. -/
abbrev ProductID := Int

/-- Source: `func printProduct(id ProductID)`, the text it writes. -/
def printProduct (id : ProductID) : String := Println [.str "Product ID:", .int id]

/-- Source: `main`. -/
def main : Exit :=
  let rawID : Int := 42
  exited (printProduct rawID)

end TypeDefinitions

/-! ## variadic-functions/main.go -/

namespace VariadicFunctions

/-- Source: `func sum(nums ...int) int`. -/
def sum (nums : List Int) : Int := nums.foldl (fun total n => wrapInt (total + n)) 0

/-- Source: `func multiplyAll(nums ...int) int`. -/
def multiplyAll (nums : List Int) : Int :=
  if nums.length = 0 then 1
  else nums.foldl (fun result n => wrapInt (result * n)) 1

/-- Source: `main`. -/
def main : Exit :=
  let out := Println [.int (multiplyAll [5])]
  let out := out ++ Println [.int (multiplyAll [2, 3, 4])]
  exited (out ++ Println [.int (multiplyAll [])])

end VariadicFunctions

/-! ## writer-interface/main.go -/

namespace WriterInterface

/-- Source: `func writeMessage(w io.Writer)`: what has been written to `w`
after the call, `w` being what had been written before. -/
def writeMessage (w : String) : String := w ++ "Hello from io.Writer\n"

/-- Source: `func writeGreeting(w io.Writer)`. -/
def writeGreeting (w : String) : String := w ++ "Hello from the writer interface\n"

/-- Source: `main`; `createOk` tells whether `os.Create("greeting.txt")`
succeeds.  The second component is the contents of the file when it has been
created; the deferred `file.Close()` runs when `main` returns. -/
def main (createOk : Bool) : Exit × Option String :=
  let stdout := writeGreeting ""
  if !createOk then (exited stdout, none)
  else
    let file := ""
    let file := writeGreeting file
    (exited stdout, some file)

end WriterInterface

/-! ## writing-to-files/main.go -/

namespace WritingToFiles

/-- Source: `main`; `createErr` is the error of `os.Create("notes.txt")`,
`none` when it succeeds.  The second component is the contents of the file
when it has been created. -/
def main (createErr : Option String) : Exit × Option String :=
  match createErr with
  | some err =>
      (exited (Println [.str "Error creating file:", .err "*fs.PathError" err]), none)
  | none =>
    let file := ""
    let file := file ++ "Lesson notes\n"
    let file := file ++ "Writing files in Go\n"
    let file := file ++ "Using os.Create\n"
    (exited (Println [.str "notes.txt written successfully"]), some file)

end WritingToFiles

/-! # Theorems -/

/-! ## Helper lemmas -/

theorem wrapInt_of_isInt (x : Int) (h : IsInt x) : wrapInt x = x := by
  unfold IsInt at h
  unfold wrapInt
  have h1 : (x + 2 ^ 63) % 2 ^ 64 = x + 2 ^ 63 :=
    Int.emod_eq_of_lt (by omega) (by omega)
  omega

theorem isInt_wrapInt (x : Int) : IsInt (wrapInt x) := by
  unfold IsInt wrapInt
  have h1 : 0 ≤ (x + 2 ^ 63) % 2 ^ 64 := Int.emod_nonneg _ (by norm_num)
  have h2 : (x + 2 ^ 63) % 2 ^ 64 < 2 ^ 64 := Int.emod_lt_of_pos _ (by norm_num)
  constructor <;> omega

/-- The dyadic value used for the literal `9.99` has a 53-bit mantissa and lies
within half a unit in the last place of `999 / 100`. -/
theorem price_nearest_double :
    2 ^ 52 ≤ StringFormatting.price.mant ∧ StringFormatting.price.mant < 2 ^ 53 ∧
    |100 * StringFormatting.price.mant - 999 * 2 ^ 49| * 2 ≤ 100 := by
  decide

namespace ChannelBasics

theorem println_received (v : Int) :
    Println [.str "Received:", .int v] = "Received: " ++ toString v ++ "\n" := rfl

theorem runs_seven (v : Int) : runs v 7 = [] := rfl

theorem runs_of_ge (v : Int) (n : Nat) (h : 7 ≤ n) : runs v n = [] := by
  induction n, h using Nat.le_induction with
  | base => exact runs_seven v
  | succ n _ ih => simp [runs, ih]

theorem mem_allStates (v : Int) (s : State) (h : Reachable v s) : s ∈ allStates v := by
  obtain ⟨n, hn⟩ := h
  by_cases h7 : 7 ≤ n
  · rw [runs_of_ge v n h7] at hn
    simp at hn
  · simp only [allStates, List.mem_flatMap, List.mem_range]
    exact ⟨n, by omega, hn⟩

/-- What holds of every state a run reaches: the receive slot is empty or
holds the sent value, nothing is printed before `main` returns, and past the
receive the slot holds the sent value. -/
theorem allStates_value (v : Int) (s : State) (hs : s ∈ allStates v) :
    (s.value = none ∨ s.value = some v) ∧
    (s.mainPc = .atPrintln ∨ s.mainPc = .exited → s.value = some v) ∧
    (s.mainPc ≠ .exited → s.stdout = "") ∧
    (s.mainPc = .exited → s.stdout = Println [.str "Received:", .int v]) := by
  simp [allStates, List.range, List.range.loop, runs, step, stepMain, stepAnon, init,
    chansend, chanrecv, makechan] at hs
  rcases hs with h | h | h | h | h | h | h | h | h | h | h | h <;> subst h <;> simp

/-- Whatever is sent, some run ends with `main` returned. -/
theorem completedRunOf_reachable (v : Int) :
    Reachable v (completedRunOf v) ∧ (completedRunOf v).mainPc = .exited := by
  refine ⟨⟨6, ?_⟩, rfl⟩
  simp [runs, step, stepMain, stepAnon, init, chansend, chanrecv, makechan, completedRunOf]

/-- Whatever is sent, the run in which the goroutine parks first also ends
with `main` returned. -/
theorem senderFirstRunOf_reachable (v : Int) :
    Reachable v (senderFirstRunOf v) ∧ (senderFirstRunOf v).mainPc = .exited ∧
    (senderFirstRunOf v).trace.head? = some .sendInit := by
  refine ⟨⟨6, ?_⟩, rfl, rfl⟩
  simp [runs, step, stepMain, stepAnon, init, chansend, chanrecv, makechan, senderFirstRunOf]

/-- The order of events and the emptiness of the buffer in every state a run
reaches. -/
theorem allStates_order (v : Int) (s : State) (hs : s ∈ allStates v) :
    (s.anonPc = .returned ↔ Event.sendDone ∈ s.trace) ∧
    (s.mainPc = .atPrintln ∨ s.mainPc = .exited ↔ Event.recvDone ∈ s.trace) ∧
    (s.value = some v ↔ Event.delivered ∈ s.trace) ∧
    precedes .delivered .sendDone s.trace = true ∧
    precedes .sendInit .recvDone s.trace = true ∧
    precedes .sendInit .delivered s.trace = true ∧
    precedes .recvInit .delivered s.trace = true ∧
    (∀ c, s.numbers = some c → c.dataqsiz = 0 ∧ c.buf = [] ∧ c.closed = false) := by
  simp [allStates, List.range, List.range.loop, runs, step, stepMain, stepAnon, init,
    chansend, chanrecv, makechan] at hs
  rcases hs with h | h | h | h | h | h | h | h | h | h | h | h <;> subst h <;>
    simp [precedes]

/-- A reachable state without successor is one in which `main` has returned,
and no reachable state is a crash. -/
theorem allStates_stuck (v : Int) (s : State) (hs : s ∈ allStates v) :
    (step v s = [] → s.mainPc = .exited) ∧ s.mainPc ≠ .crashed := by
  simp [allStates, List.range, List.range.loop, runs, step, stepMain, stepAnon, init,
    chansend, chanrecv, makechan] at hs
  rcases hs with h | h | h | h | h | h | h | h | h | h | h | h <;> subst h <;>
    simp [step, stepMain, stepAnon, chansend, chanrecv]

end ChannelBasics

namespace Http

theorem serve_isSome_iff (mux : ServeMux) (accepts : Nat → AcceptResult) (fuel : Nat) :
    ∀ (i : Nat) (log : List ResponseWriter),
      (serve mux accepts fuel i log).isSome = true ↔ ∃ j, j < fuel ∧ accepts (i + j) = .err := by
  induction fuel with
  | zero => intro i log; simp [serve]
  | succ fuel ih =>
    intro i log
    have key : (∃ j, j < fuel ∧ accepts (i + 1 + j) = .err) → 
        ∃ j, j < fuel + 1 ∧ accepts (i + j) = .err := by
      rintro ⟨j, hj, he⟩
      exact ⟨j + 1, by omega, by rw [← he]; congr 1; omega⟩
    have back : accepts i ≠ .err → (∃ j, j < fuel + 1 ∧ accepts (i + j) = .err) →
        ∃ j, j < fuel ∧ accepts (i + 1 + j) = .err := by
      rintro hne ⟨j, hj, he⟩
      cases j with
      | zero => exact absurd he hne
      | succ j => exact ⟨j, by omega, by rw [← he]; congr 1; omega⟩
    unfold serve
    cases hacc : accepts i with
    | err =>
      simp only [Option.isSome_some, true_iff]
      exact ⟨0, by omega, hacc⟩
    | tempErr =>
      simp only []
      rw [ih]
      exact ⟨key, back (by rw [hacc]; simp)⟩
    | conn r =>
      simp only []
      rw [ih]
      exact ⟨key, back (by rw [hacc]; simp)⟩

theorem listenAndServe_returns_iff (mux : ServeMux) (env : Env) :
    (∃ fuel, (ListenAndServe mux env fuel).isSome = true) ↔ env.Stops := by
  unfold ListenAndServe Env.Stops
  cases hl : env.listenOk with
  | false => simp
  | true =>
    simp only [if_true, serve_isSome_iff, Nat.zero_add]
    constructor
    · rintro ⟨_, j, _, he⟩
      exact Or.inr ⟨j, he⟩
    · rintro (h | ⟨j, he⟩)
      · simp at h
      · exact ⟨j + 1, j, by omega, he⟩

theorem serve_servingEnv (mux : ServeMux) (fuel : Nat) :
    ∀ (i : Nat) (log : List ResponseWriter), serve mux servingEnv.accepts fuel i log = none := by
  induction fuel with
  | zero => intro i log; rfl
  | succ fuel ih => intro i log; exact ih (i + 1) _

end Http

/-! ## Programs whose `main` is sequential code

Each `main` below is a value of type `Exit`: the run ends, with the output and
the exit code computed here. -/

set_option maxRecDepth 100000

theorem anonymousFunctions_main_exits : AnonymousFunctions.main = exited "7\n" := by decide

theorem anyType_main_exits : AnyType.main = exited "Age: 30\nType: int\nName: Alice\nType: string\nPrice: 19.99\nType: float64\n" := by decide

theorem basicErrors_main_exits : BasicErrors.main = exited "Error: cannot take the square root of a negative number\n" := by decide

theorem booleanOperators_main_exits : BooleanOperators.main = exited "Action denied\n" := by decide

theorem closures_main_exits : Closures.main = exited "15\n30\n" := by decide

theorem copyingSlices_main_exits : CopyingSlices.main = exited "numbers: [5 10 15]\ncopied: [5 10 100]\n" := by decide

theorem customErrorTypes_main_exits : CustomErrorTypes.main = exited "Error: user not found\n" := by decide

theorem defer_main_exits : Defer.main = exited "Saving report\nWriting data\nCleaning temporary data\nClosing resources\n" := by decide

theorem expandingWithEllipsis_main_exits : ExpandingWithEllipsis.main = exited "one\ntwo\nthree\n" := by decide

theorem floats_main_exits : Floats.main = exited "Price type: float32\nTemperature type: float64\nHeight type: float64\n" := by decide

theorem functionValues_main_exits : FunctionValues.main = exited "20\n5\n" := by decide

theorem goMaps_main_exits : GoMaps.main = exited "map[fr:French Republic uk:United Kingdom us:United States]\n" := by decide

theorem goSlices_main_exits : GoSlices.main = exited "Original slice: [10 20 30]\nFirst item: 10\nOriginal slice length: 3\nNew slice length: 6\nNew slice: [10 20 30 40 50 60]\n" := by decide

theorem goStructs_main_exits : GoStructs.main = exited "Title: Go in Practice\nAuthor: Alice Smith\nYear: 2025\n" := by decide

theorem introductionToInterfaces_main_exits : IntroductionToInterfaces.main = exited "Starting application\n[INFO] User logged in\n" := by decide

theorem jsonTags_main_exits : JsonTags.main = exited "\x7b\"id\":1,\"name\":\"Notebook\",\"price\":0\x7d\n" := by decide

theorem mapCommaOkIdiom_main_exits : MapCommaOkIdiom.main = exited "User not found: sarah\n" := by decide

theorem mapsReferenceSemantics_main_exits : MapsReferenceSemantics.main = exited "map[apple:2 banana:1]\n" := by decide

theorem mathOperators_main_exits : MathOperators.main = exited "a + b = 13\na - b = 7\na * b = 30\na / b = 3\na % b = 1\nx / y = 3.3333333333333335\nResult using parentheses: 62\nPi: 3.141592653589793\nSquare root of 16: 4\n" := by decide

theorem methodsAndReceivers_main_exits : MethodsAndReceivers.main = exited "50\n" := by decide

theorem multipleReturnValues_main_exits : MultipleReturnValues.main = exited "The numbers are equal\n" := by decide

theorem namedReturnValues_main_exits : NamedReturnValues.main = exited "Total: 15\nCount: 3\n" := by decide

theorem pointerBasics_main_exits : PointerBasics.main = exited "Updated score: 150\n" := by decide

theorem pointerReceivers_main_exits : PointerReceivers.main = exited "Alice has a balance of 175.00\n" := by decide

theorem pointersAsParams_main_exits : PointersAsParams.main = exited "Updated pages: 250\n" := by decide

theorem sliceReferenceSemantics_main_exits : SliceReferenceSemantics.main = exited "Original after append: [10 20]\nNew slice after append: [10 20 50]\n" := by decide

theorem stringsPackage_main_exits : StringsPackage.main = exited "Trimmed: report.txt\nValid .txt: true\nUpper: REPORT.TXT\n" := by decide

theorem stringsToNumbers_main_exits : StringsToNumbers.main = exited "Result: 35\n" := by decide

theorem typeAssertions_main_exits : TypeAssertions.main = exited "String: hello\nInt: 42\nUnknown type: bool\n" := by decide

theorem typeConversion_main_exits : TypeConversion.main = exited "Integer division: 3\nFloat division: 3.3333333333333335\n" := by decide

theorem typeDefinitions_main_exits : TypeDefinitions.main = exited "Product ID: 42\n" := by decide

theorem variadicFunctions_main_exits : VariadicFunctions.main = exited "5\n24\n1\n" := by decide


theorem println_two (a b : String) :
    Println [.str a, .str b] = a ++ " " ++ b ++ "\n" := rfl

theorem workingWithTime_main_exits (now : Time) : WorkingWithTime.main now =
    exited ("Full: " ++ now.String ++ "\nDate: " ++ now.date "-" ++ "\nTime: "
      ++ now.clock ++ "\n") := by
  have h1 : now.Format "2006-01-02" = now.date "-" := by simp [Time.Format]
  have h2 : now.Format "15:04:05" = now.clock := by simp [Time.Format]
  simp only [WorkingWithTime.main, println_two, h1, h2, String.append_assoc]
  rfl

theorem logPackage_main_exits (clock : Nat → Time) : LogPackage.main clock =
    { stdout := "",
      stderr := logPrintln (clock 0) [.str "Starting service"]
        ++ logPrintln (clock 1) [.str "Service started successfully"],
      code := 0 } := rfl

theorem readerInterface_main_exits (data : String) :
    ReaderInterface.main { openFile := some (some data) } =
      exited ("Hello from a string reader\n" ++ data ++ "\n") := rfl

theorem writingToFiles_main_exits (err : String) : WritingToFiles.main (some err) =
    (exited ("Error creating file: " ++ err ++ "\n"), none) := rfl

theorem creatingPackages_main_exits (SayHello WelcomeMessage : String → String) :
    CreatingPackages.main SayHello WelcomeMessage =
      exited (SayHello "Gary" ++ (WelcomeMessage "Gary" ++ "\n")) := rfl

namespace GoroutineBasics

theorem hello_runs_five : runs 5 = [] := by decide

theorem hello_runs_of_ge (n : Nat) (h : 5 ≤ n) : runs n = [] := by
  induction n, h using Nat.le_induction with
  | base => exact hello_runs_five
  | succ n _ ih => simp [runs, ih]

theorem hello_allStates_stuck :
    ∀ s ∈ allStates, step s = [] → s.mainPc = .exited ∧ s.stdout ∈ outputs := by
  decide

theorem hello_stuck_exited (n : Nat) (s : State) (hs : s ∈ runs n) (hstuck : step s = []) :
    s.mainPc = .exited ∧ s.stdout ∈ outputs := by
  by_cases h5 : 5 ≤ n
  · rw [hello_runs_of_ge n h5] at hs
    simp at hs
  · refine hello_allStates_stuck s ?_ hstuck
    simp only [allStates, List.mem_flatMap, List.mem_range]
    exact ⟨n, by omega, hs⟩

end GoroutineBasics

/-! ## The claims -/

/-- C1: in channel-basics the value `main` receives is the value the goroutine
sent.  For every `v` in place of the constant and every state a run reaches,
the receive slot is either still empty or holds `v` (never a zero or stale
value), it holds `v` once the receive has returned, and when `main` has
returned standard output is exactly the line `Received: v`; for the constant
of the source, `100`, that is `Received: 100`.  Some run does end with `main`
returned.  Every run does: no run has more than six steps, and a reachable
state in which no goroutine can take a step, whichever of the two reached the
channel first, is one in which `main` has returned with `v` received and the
line printed; so the receive never stays blocked and the value is never
lost. -/
theorem ChannelBasics.received_value_is_sent (v : Int) (s : ChannelBasics.State)
    (hr : ChannelBasics.Reachable v s) :
    (s.value = none ∨ s.value = some v) ∧
    (s.mainPc = .atPrintln ∨ s.mainPc = .exited → s.value = some v) ∧
    (s.mainPc ≠ .exited → s.stdout = "") ∧
    (s.mainPc = .exited → s.stdout = "Received: " ++ toString v ++ "\n") ∧
    (s.mainPc = .exited → v = ChannelBasics.sent → s.stdout = "Received: 100\n") ∧
    (∃ t, ChannelBasics.Reachable v t ∧ t.mainPc = .exited) ∧
    ChannelBasics.runs v 7 = [] ∧
    (ChannelBasics.step v s = [] →
      s.mainPc = .exited ∧ s.value = some v ∧
      s.stdout = "Received: " ++ toString v ++ "\n") ∧
    (∃ t, ChannelBasics.Reachable v t ∧ t.mainPc = .exited ∧
      t.trace.head? = some .sendInit) := by
  have hs := ChannelBasics.mem_allStates v s hr
  obtain ⟨h1, h2, h3, h4⟩ := ChannelBasics.allStates_value v s hs
  have h5 : s.mainPc = .exited → s.stdout = "Received: " ++ toString v ++ "\n" := by
    intro he
    rw [h4 he, ChannelBasics.println_received]
  refine ⟨h1, h2, h3, h5, ?_, ⟨_, ChannelBasics.completedRunOf_reachable v⟩,
    ChannelBasics.runs_seven v, ?_, ⟨_, ChannelBasics.senderFirstRunOf_reachable v⟩⟩
  · intro he hv
    rw [h4 he, hv]
    rfl
  · intro hstuck
    have he := (ChannelBasics.allStates_stuck v s hs).1 hstuck
    exact ⟨he, h2 (Or.inr he), h5 he⟩

/-- Witness of C1: the run of the program as written in which `main` parks
first ends with `100` received and `Received: 100` printed. -/
theorem ChannelBasics.received_value_is_sent_witness :
    ChannelBasics.Reachable 100 ChannelBasics.completedRun ∧
    ChannelBasics.completedRun.mainPc = .exited ∧
    ChannelBasics.completedRun.value = some 100 ∧
    ChannelBasics.completedRun.stdout = "Received: 100\n" :=
  have hr : ChannelBasics.Reachable 100 ChannelBasics.completedRun := ⟨6, by decide⟩
  ⟨hr, rfl,
   (ChannelBasics.received_value_is_sent 100 ChannelBasics.completedRun hr).2.1 (Or.inr rfl),
   (ChannelBasics.received_value_is_sent 100 ChannelBasics.completedRun hr).2.2.2.2.1 rfl rfl⟩

/-- C2: the send and the receive of channel-basics are a rendezvous.  In every
state a run reaches: the send has completed exactly when `sendDone` is
recorded, and the element was delivered to `main` before that; the receive
has completed exactly when `recvDone` is recorded, and the send was initiated
before that (and before the delivery, which itself follows the start of the
receive); and the channel has capacity 0 and an empty buffer, so no element is
ever stored in it. -/
theorem ChannelBasics.send_receive_rendezvous (v : Int) (s : ChannelBasics.State)
    (hr : ChannelBasics.Reachable v s) :
    (s.anonPc = .returned ↔ ChannelBasics.Event.sendDone ∈ s.trace) ∧
    (s.mainPc = .atPrintln ∨ s.mainPc = .exited ↔ ChannelBasics.Event.recvDone ∈ s.trace) ∧
    (s.value = some v ↔ ChannelBasics.Event.delivered ∈ s.trace) ∧
    ChannelBasics.precedes .delivered .sendDone s.trace = true ∧
    ChannelBasics.precedes .sendInit .recvDone s.trace = true ∧
    ChannelBasics.precedes .sendInit .delivered s.trace = true ∧
    ChannelBasics.precedes .recvInit .delivered s.trace = true ∧
    (∀ c, s.numbers = some c → c.dataqsiz = 0 ∧ c.buf = [] ∧ c.closed = false) :=
  ChannelBasics.allStates_order v s (ChannelBasics.mem_allStates v s hr)

/-- Witness of C2: when the goroutine sends before `main` receives, it is
parked in the send, which has not completed, and the buffer is empty. -/
theorem ChannelBasics.send_receive_rendezvous_witness :
    ChannelBasics.Reachable 100 ChannelBasics.senderParked ∧
    ¬ ChannelBasics.Event.sendDone ∈ ChannelBasics.senderParked.trace ∧
    (∀ c, ChannelBasics.senderParked.numbers = some c →
      c.dataqsiz = 0 ∧ c.buf = [] ∧ c.closed = false) :=
  have hr : ChannelBasics.Reachable 100 ChannelBasics.senderParked := ⟨3, by decide⟩
  ⟨hr,
   fun h => absurd
     ((ChannelBasics.send_receive_rendezvous 100 ChannelBasics.senderParked hr).1.mpr h)
     (by decide),
   (ChannelBasics.send_receive_rendezvous 100 ChannelBasics.senderParked hr).2.2.2.2.2.2.2⟩

/-- C3: evaluation of switch-statements.  The three named statuses print their
messages, but for the status of the program, `"terminated"`, the default
branch prints `Unknown status` without the final full stop that the comment
in the source asks for. -/
theorem SwitchStatements.default_branch_lacks_full_stop :
    SwitchStatements.switchStatus "success" = "Operation completed successfully.\n" ∧
    SwitchStatements.switchStatus "error" = "Something went wrong.\n" ∧
    SwitchStatements.switchStatus "loading" = "Please wait...\n" ∧
    SwitchStatements.switchStatus "terminated" = "Unknown status\n" ∧
    SwitchStatements.main = "Unknown status\n" ∧
    SwitchStatements.main ≠ "Unknown status.\n" := by
  refine ⟨by decide, by decide, by decide, by decide, by decide, by decide⟩

/-- C4: evaluation of string-formatting.  The string stored in `message` is
`Notebook costs 9.99` followed by a newline: it has no dollar sign and one
character more than the text the comment in the source asks for, and the
program writes it followed by a second newline. -/
theorem StringFormatting.message_lacks_dollar_sign :
    StringFormatting.message = "Notebook costs 9.99\n" ∧
    StringFormatting.message ≠ "Notebook costs $9.99" ∧
    StringFormatting.main = "Notebook costs 9.99\n\n" ∧
    StringFormatting.main ≠ "Notebook costs $9.99\n" := by
  refine ⟨by decide, by decide, by decide, by decide⟩

/-- C5: for every `int` value `n`, `double n` is `n + n` and `2 * n` reduced to
the 64-bit `int`: it is an `int`, it is `2 * n` itself when that fits and
`2 * n` moved by `2^64` otherwise; `double 4` is `8`, and `main` prints `8`. -/
theorem BasicFunctions.double_is_twice (n : Int) (hn : IsInt n) :
    BasicFunctions.double n = wrapInt (n + n) ∧
    BasicFunctions.double n = wrapInt (2 * n) ∧
    IsInt (BasicFunctions.double n) ∧
    BasicFunctions.double n =
      (if 2 * n < -(2 ^ 63) then 2 * n + 2 ^ 64
       else if 2 ^ 63 ≤ 2 * n then 2 * n - 2 ^ 64 else 2 * n) ∧
    BasicFunctions.double 4 = 8 ∧
    BasicFunctions.main = "8\n" := by
  refine ⟨?_, ?_, isInt_wrapInt _, ?_, by decide, by decide⟩
  · unfold BasicFunctions.double
    congr 1
    omega
  · unfold BasicFunctions.double
    congr 1
    omega
  · unfold IsInt at hn
    unfold BasicFunctions.double wrapInt
    split_ifs <;> omega

/-- Witness of C5: at `n = 4`, an `int`, `double` returns `8`. -/
theorem BasicFunctions.double_is_twice_witness :
    IsInt 4 ∧ BasicFunctions.double 4 = wrapInt (2 * 4) ∧ BasicFunctions.double 4 = 8 :=
  have h4 : IsInt 4 := by unfold IsInt; decide
  ⟨h4, (BasicFunctions.double_is_twice 4 h4).2.1, (BasicFunctions.double_is_twice 4 h4).2.2.2.2.1⟩

/-- C6: closing an open channel that holds no pending value (empty buffer, no
parked sender) succeeds and releases no sender, and on the closed channel a
receive returns the end-of-stream outcome at once, leaving the channel as it
is, so that every later receive does the same, while every send panics; a
send panics on every closed channel whatever it holds. -/
theorem close_then_receive_signals_end (c : Hchan) (g : Gid)
    (hopen : c.closed = false) (hbuf : c.buf = []) (hsend : c.sendq = []) :
    (∃ c1 rs, closechan c = .closed c1 rs [] ∧ c1.closed = true ∧
      chanrecv c1 g = .closedEmpty c1 ∧
      (∀ h x, chansend c1 h x = .panicClosed)) ∧
    (∀ d : Hchan, d.closed = true → ∀ h x, chansend d h x = .panicClosed) := by
  refine ⟨⟨{ c with closed := true, recvq := [], sendq := [] }, c.recvq,
    ?_, rfl, ?_, ?_⟩, ?_⟩
  · simp [closechan, hopen, hsend]
  · simp [chanrecv, hbuf]
  · intro h x
    simp [chansend]
  · intro d hd h x
    simp [chansend, hd]

/-- Witness of C6: the channel `make(chan int)` closed right after it is
made. -/
theorem close_then_receive_signals_end_witness :
    ∃ c1 rs, closechan (makechan 0) = .closed c1 rs [] ∧ c1.closed = true ∧
      chanrecv c1 .main = .closedEmpty c1 ∧
      (∀ h x, chansend c1 h x = .panicClosed) :=
  (close_then_receive_signals_end (makechan 0) .main rfl rfl rfl).1

/-- Counterexample to C7: on a free port with connections that keep coming, the
`main` of starting-a-server has not returned after any number of `Accept`
calls, so it is not true that `main` terminates on every run. -/
theorem StartingAServer.main_never_returns_while_serving :
    (∀ fuel, StartingAServer.main Http.servingEnv fuel = none) ∧
    ¬ (∀ env : Http.Env, ∃ fuel, (StartingAServer.main env fuel).isSome = true) := by
  have h : ∀ fuel, StartingAServer.main Http.servingEnv fuel = none := by
    intro fuel
    exact Http.serve_servingEnv _ fuel 0 []
  refine ⟨h, ?_⟩
  intro hall
  obtain ⟨fuel, hf⟩ := hall Http.servingEnv
  rw [h fuel] at hf
  simp at hf

/-- C7 as amended: every program of the repository that builds runs once and
exits, except the five HTTP programs.  The `main` of each HTTP program
returns exactly on the runs in which `http.ListenAndServe` returns, that is
when the listener cannot be opened or an `Accept` fails for good (when the
port is taken, the `main` of starting-a-server returns at once).
channel-basics terminates on every run: no run has more than six steps, a
reachable state without successor is one in which `main` has returned, and no
run crashes.  goroutine-basics terminates on every run: no run has more than
four steps and a state without successor is one in which `main` has returned,
with one of three outputs.  Every other `main` is sequential code that reaches
its end with exit code 0 and the output stated, whatever the clock and the
file system give it; creating-packages does so provided the two functions of
the packages that are not in the repository return.  nil/main.go is rejected
by the compiler and has no run. -/
theorem main_terminates_unless_serving :
    -- the five HTTP programs
    (∀ env : Http.Env,
      ((∃ fuel, (StartingAServer.main env fuel).isSome = true) ↔ env.Stops) ∧
      ((∃ fuel, (HandlersAndRoutes.main env fuel).isSome = true) ↔ env.Stops) ∧
      ((∃ fuel, (HandlingHttpMethods.main env fuel).isSome = true) ↔ env.Stops) ∧
      ((∃ fuel, (JsonResponses.main env fuel).isSome = true) ↔ env.Stops) ∧
      ((∃ fuel, (ResponseHeaders.main env fuel).isSome = true) ↔ env.Stops)) ∧
    -- channel-basics
    (∀ v : Int, ChannelBasics.runs v 7 = [] ∧
      ∀ s, ChannelBasics.Reachable v s →
        (ChannelBasics.step v s = [] → s.mainPc = .exited) ∧ s.mainPc ≠ .crashed) ∧
    StartingAServer.main Http.portTakenEnv 0 = some [] ∧
    -- goroutine-basics
    (GoroutineBasics.runs 5 = [] ∧
      ∀ n s, s ∈ GoroutineBasics.runs n → GoroutineBasics.step s = [] →
        s.mainPc = .exited ∧ s.stdout ∈ GoroutineBasics.outputs) ∧
    -- sequential programs
    BasicFunctions.main = "8\n" ∧
    SwitchStatements.main = "Unknown status\n" ∧
    StringFormatting.main = "Notebook costs 9.99\n\n" ∧
    AnonymousFunctions.main = exited "7\n" ∧
    AnyType.main = exited "Age: 30\nType: int\nName: Alice\nType: string\nPrice: 19.99\nType: float64\n" ∧
    BasicErrors.main = exited "Error: cannot take the square root of a negative number\n" ∧
    BooleanOperators.main = exited "Action denied\n" ∧
    Closures.main = exited "15\n30\n" ∧
    CopyingSlices.main = exited "numbers: [5 10 15]\ncopied: [5 10 100]\n" ∧
    CustomErrorTypes.main = exited "Error: user not found\n" ∧
    Defer.main = exited "Saving report\nWriting data\nCleaning temporary data\nClosing resources\n" ∧
    ExpandingWithEllipsis.main = exited "one\ntwo\nthree\n" ∧
    Floats.main = exited "Price type: float32\nTemperature type: float64\nHeight type: float64\n" ∧
    FunctionValues.main = exited "20\n5\n" ∧
    GoMaps.main = exited "map[fr:French Republic uk:United Kingdom us:United States]\n" ∧
    GoSlices.main = exited "Original slice: [10 20 30]\nFirst item: 10\nOriginal slice length: 3\nNew slice length: 6\nNew slice: [10 20 30 40 50 60]\n" ∧
    GoStructs.main = exited "Title: Go in Practice\nAuthor: Alice Smith\nYear: 2025\n" ∧
    IntroductionToInterfaces.main = exited "Starting application\n[INFO] User logged in\n" ∧
    JsonTags.main = exited "\x7b\"id\":1,\"name\":\"Notebook\",\"price\":0\x7d\n" ∧
    MapCommaOkIdiom.main = exited "User not found: sarah\n" ∧
    MapsReferenceSemantics.main = exited "map[apple:2 banana:1]\n" ∧
    MathOperators.main = exited "a + b = 13\na - b = 7\na * b = 30\na / b = 3\na % b = 1\nx / y = 3.3333333333333335\nResult using parentheses: 62\nPi: 3.141592653589793\nSquare root of 16: 4\n" ∧
    MethodsAndReceivers.main = exited "50\n" ∧
    MultipleReturnValues.main = exited "The numbers are equal\n" ∧
    NamedReturnValues.main = exited "Total: 15\nCount: 3\n" ∧
    PointerBasics.main = exited "Updated score: 150\n" ∧
    PointerReceivers.main = exited "Alice has a balance of 175.00\n" ∧
    PointersAsParams.main = exited "Updated pages: 250\n" ∧
    SliceReferenceSemantics.main = exited "Original after append: [10 20]\nNew slice after append: [10 20 50]\n" ∧
    StringsPackage.main = exited "Trimmed: report.txt\nValid .txt: true\nUpper: REPORT.TXT\n" ∧
    StringsToNumbers.main = exited "Result: 35\n" ∧
    TypeAssertions.main = exited "String: hello\nInt: 42\nUnknown type: bool\n" ∧
    TypeConversion.main = exited "Integer division: 3\nFloat division: 3.3333333333333335\n" ∧
    TypeDefinitions.main = exited "Product ID: 42\n" ∧
    VariadicFunctions.main = exited "5\n24\n1\n" ∧
    -- programs that read the clock
    (∀ clock : Nat → Time, LogPackage.main clock =
      { stdout := "",
        stderr := logPrintln (clock 0) [.str "Starting service"]
          ++ logPrintln (clock 1) [.str "Service started successfully"],
        code := 0 }) ∧
    LogPackage.main (fun _ => sampleTime) =
      { stdout := "",
        stderr := "2009/11/10 23:00:00 Starting service\n"
          ++ "2009/11/10 23:00:00 Service started successfully\n",
        code := 0 } ∧
    (∀ now : Time, WorkingWithTime.main now =
      exited ("Full: " ++ now.String ++ "\nDate: " ++ now.date "-" ++ "\nTime: "
        ++ now.clock ++ "\n")) ∧
    WorkingWithTime.main sampleTime =
      exited ("Full: 2009-11-10 23:00:00.5 +0000 UTC m=+0.000012345\n"
        ++ "Date: 2009-11-10\nTime: 23:00:00\n") ∧
    -- programs that use the file system
    ReaderInterface.main { openFile := none } = exited "Hello from a string reader\n" ∧
    ReaderInterface.main { openFile := some none } = exited "Hello from a string reader\n" ∧
    (∀ data : String, ReaderInterface.main { openFile := some (some data) } =
      exited ("Hello from a string reader\n" ++ data ++ "\n")) ∧
    WriterInterface.main false = (exited "Hello from the writer interface\n", none) ∧
    WriterInterface.main true =
      (exited "Hello from the writer interface\n", some "Hello from the writer interface\n") ∧
    WritingToFiles.main none =
      (exited "notes.txt written successfully\n",
       some "Lesson notes\nWriting files in Go\nUsing os.Create\n") ∧
    (∀ err : String, WritingToFiles.main (some err) =
      (exited ("Error creating file: " ++ err ++ "\n"), none)) ∧
    -- the program whose packages are absent, and the one that does not build
    (∀ SayHello WelcomeMessage : String → String,
      CreatingPackages.main SayHello WelcomeMessage =
        exited (SayHello "Gary" ++ (WelcomeMessage "Gary" ++ "\n"))) ∧
    Nil.build =
      .error "invalid operation: value == nil (mismatched types int and untyped nil)" := by
  refine ⟨fun env => ⟨?_, ?_, ?_, ?_, ?_⟩, fun v => ⟨ChannelBasics.runs_seven v, fun s hr =>
    ChannelBasics.allStates_stuck v s (ChannelBasics.mem_allStates v s hr)⟩, rfl,
    ⟨GoroutineBasics.hello_runs_five, GoroutineBasics.hello_stuck_exited⟩,
    by decide, by decide, by decide,
    anonymousFunctions_main_exits, anyType_main_exits, basicErrors_main_exits,
    booleanOperators_main_exits, closures_main_exits, copyingSlices_main_exits,
    customErrorTypes_main_exits, defer_main_exits, expandingWithEllipsis_main_exits,
    floats_main_exits, functionValues_main_exits, goMaps_main_exits, goSlices_main_exits,
    goStructs_main_exits, introductionToInterfaces_main_exits, jsonTags_main_exits,
    mapCommaOkIdiom_main_exits, mapsReferenceSemantics_main_exits,
    mathOperators_main_exits, methodsAndReceivers_main_exits,
    multipleReturnValues_main_exits, namedReturnValues_main_exits,
    pointerBasics_main_exits, pointerReceivers_main_exits, pointersAsParams_main_exits,
    sliceReferenceSemantics_main_exits, stringsPackage_main_exits,
    stringsToNumbers_main_exits, typeAssertions_main_exits, typeConversion_main_exits,
    typeDefinitions_main_exits, variadicFunctions_main_exits,
    logPackage_main_exits, by decide, workingWithTime_main_exits, by decide,
    by decide, by decide, readerInterface_main_exits, by decide, by decide, by decide,
    writingToFiles_main_exits, creatingPackages_main_exits, rfl⟩ <;>
  exact Http.listenAndServe_returns_iff _ env

end GoBytes
